import Mathlib

/- Verification development for the synthetic e-commerce data generator
   (scripts/data/generate_ecommerce_data.py).

   Randomness is modelled by an explicit stream of rational draws threaded
   through every generator function, so each generator is a pure function of
   the stream and of the clock value `now` (the script's `datetime.now()` /
   faker's `'today'`, at day granularity, as an integer).  The three Python
   sources of randomness (`random`, `np.random`, faker's generator) are all
   seeded from the single CLI seed and consumed in a fixed call order; they
   are modelled by one stream, which realises exactly the same set of
   possible draw combinations.  Money is modelled exactly by rationals, with
   `round2` playing the role of Python's `round(x, 2)`. -/

namespace Ecom

/-- Pseudo-random source: a stream of rational draws plus a position.
A seeded run corresponds to a fixed stream; every primitive consumes one
draw and advances the position. -/
structure Rng where
  stream : Nat → Rat
  pos : Nat

/-- Consume one raw draw. -/
def next (g : Rng) : Rat × Rng := (g.stream g.pos, ⟨g.stream, g.pos + 1⟩)

/-- A stream backed by a finite list, for concrete evaluations. -/
def listRng (l : List Rat) : Rng := ⟨fun n => l.getD n 0, 0⟩

/-- The stream obtained from the CLI seed: a linear-congruential sequence.
Models `random.seed(s); np.random.seed(s); Faker.seed(s)`: the whole stream
is a function of the seed alone. -/
def mkRng (seed : Nat) : Rng :=
  ⟨fun n => (((1103515245 * (seed + n) + 12345) % 2147483648 : Nat) : Rat), 0⟩

/-- An integer draw (models index/`randint` raw material). -/
def randNat (g : Rng) : Nat × Rng :=
  ((⌊(next g).1⌋).toNat, (next g).2)

/-- A draw in `[0, 1)` (models `random.random()`). -/
def randUnit (g : Rng) : Rat × Rng :=
  (Int.fract (next g).1, (next g).2)

/-- `random.uniform(a, b) = a + (b - a) * random.random()`. -/
def randUniform (a b : Rat) (g : Rng) : Rat × Rng :=
  (a + (b - a) * (randUnit g).1, (randUnit g).2)

/-- `random.randint(lo, hi)` on naturals: a uniform draw in `[lo, hi]`. -/
def randNatR (lo hi : Nat) (g : Rng) : Nat × Rng :=
  (lo + (randNat g).1 % (hi - lo + 1), (randNat g).2)

/-- `fake.date_between(lo, hi)` / `randint` on integer time points:
a uniform draw in `[lo, hi]`. -/
def randInt (lo hi : Int) (g : Rng) : Int × Rng :=
  (lo + ((randNat g).1 % ((hi - lo).toNat + 1) : Nat), (randNat g).2)

/-- `random.choice(l)` for a list with an explicit fallback for the
(never exercised) empty case. -/
def pickL (l : List α) (d : α) (g : Rng) : α × Rng :=
  (l.getD ((randNat g).1 % l.length) d, (randNat g).2)

/-- `df.sample(1).iloc[0]` / `random.choice` on a computed, possibly empty
list: `none` models the raised `ValueError` on an empty pool. -/
def sample1 (l : List α) (g : Rng) : Option (α × Rng) :=
  match l with
  | [] => none
  | x :: _ => some (pickL l x g)

/-- Walk of cumulative weights, the core of `random.choices(weights=...)`. -/
def wpick : Rat → α × Rat → List (α × Rat) → α
  | _, x, [] => x.1
  | u, x, y :: ys => if u < x.2 then x.1 else wpick (u - x.2) y ys

/-- `random.choices(population, weights=...)[0]`. -/
def choicesW (x : α × Rat) (xs : List (α × Rat)) (g : Rng) : α × Rng :=
  (wpick ((randUnit g).1 * (x.2 + (xs.map Prod.snd).sum)) x xs, (randUnit g).2)

/-- `random.sample(l, k)` / `df.sample(k)`: `k` distinct positions, drawn
without replacement.  Every call site in the script passes `k ≤ l.length`
(always through `min`), so the truncating base case is never exercised. -/
def sampleK : Nat → List α → Rng → List α × Rng
  | 0, _, g => ([], g)
  | _ + 1, [], g => ([], g)
  | k + 1, x :: xs, g =>
    ((x :: xs).getD ((randNat g).1 % (xs.length + 1)) x ::
        (sampleK k ((x :: xs).eraseIdx ((randNat g).1 % (xs.length + 1))) (randNat g).2).1,
      (sampleK k ((x :: xs).eraseIdx ((randNat g).1 % (xs.length + 1))) (randNat g).2).2)

/-- A string produced by a faker call (name, email, color, word, phrase ...):
the textual value is irrelevant to every claim, but the call consumes one
draw from the stream. -/
def fakeString (g : Rng) : String × Rng :=
  ("faker", (next g).2)

/-- Python's `round(x, 2)` on exact rationals. -/
def round2 (q : Rat) : Rat := (round (q * 100) : Int) / 100

/-- Python's `round(x, 1)` on exact rationals. -/
def round1 (q : Rat) : Rat := (round (q * 10) : Int) / 10

/- ------------------------------------------------------------------ -/
/- Lemmas about the random primitives.                                 -/
/- ------------------------------------------------------------------ -/

theorem randUnit_nonneg (g : Rng) : 0 ≤ (randUnit g).1 := Int.fract_nonneg _

theorem randUnit_lt_one (g : Rng) : (randUnit g).1 < 1 := Int.fract_lt_one _

theorem randUniform_le (a b : Rat) (g : Rng) (h : a ≤ b) :
    a ≤ (randUniform a b g).1 ∧ (randUniform a b g).1 ≤ b := by
  unfold randUniform
  constructor
  · have h1 : 0 ≤ (b - a) * (randUnit g).1 :=
      mul_nonneg (by linarith) (randUnit_nonneg g)
    simpa using by linarith
  · have h2 : (b - a) * (randUnit g).1 ≤ (b - a) * 1 :=
      mul_le_mul_of_nonneg_left (le_of_lt (randUnit_lt_one g)) (by linarith)
    simpa using by linarith

theorem randNatR_le (lo hi : Nat) (g : Rng) (h : lo ≤ hi) :
    lo ≤ (randNatR lo hi g).1 ∧ (randNatR lo hi g).1 ≤ hi := by
  unfold randNatR
  refine ⟨Nat.le_add_right _ _, ?_⟩
  have h1 : (randNat g).1 % (hi - lo + 1) ≤ hi - lo :=
    Nat.lt_succ_iff.mp (Nat.mod_lt _ (Nat.succ_pos _))
  omega

theorem randInt_le (lo hi : Int) (g : Rng) (h : lo ≤ hi) :
    lo ≤ (randInt lo hi g).1 ∧ (randInt lo hi g).1 ≤ hi := by
  unfold randInt
  constructor
  · have h1 : (0 : Int) ≤ (((randNat g).1 % ((hi - lo).toNat + 1) : Nat) : Int) :=
      Int.natCast_nonneg _
    omega
  · have h1 : (randNat g).1 % ((hi - lo).toNat + 1) ≤ (hi - lo).toNat :=
      Nat.lt_succ_iff.mp (Nat.mod_lt _ (Nat.succ_pos _))
    have h2 : (((randNat g).1 % ((hi - lo).toNat + 1) : Nat) : Int) ≤ ((hi - lo).toNat : Int) :=
      Int.ofNat_le.mpr h1
    have h3 : ((hi - lo).toNat : Int) = hi - lo := Int.toNat_of_nonneg (by omega)
    omega

theorem getD_mem (l : List α) (i : Nat) (d : α) (h : i < l.length) :
    l.getD i d ∈ l := by
  simp only [List.getD_eq_getElem?_getD, List.getElem?_eq_getElem h, Option.getD_some]
  exact List.getElem_mem h

theorem pickL_mem (l : List α) (d : α) (g : Rng) (h : l ≠ []) :
    (pickL l d g).1 ∈ l := by
  unfold pickL
  have hlen : 0 < l.length := List.length_pos.mpr h
  exact getD_mem l _ d (Nat.mod_lt _ hlen)

theorem sample1_mem (l : List α) (g : Rng) (a : α) (g' : Rng)
    (h : sample1 l g = some (a, g')) : a ∈ l := by
  match l with
  | [] => simp [sample1] at h
  | x :: xs =>
    simp only [sample1, Option.some.injEq] at h
    have := pickL_mem (x :: xs) x g (by simp)
    rw [show (pickL (x :: xs) x g).1 = a from congrArg Prod.fst h] at this
    exact this

theorem sample1_ne_nil (l : List α) (g : Rng) (h : l ≠ []) :
    ∃ a g', sample1 l g = some (a, g') := by
  match l with
  | [] => exact absurd rfl h
  | x :: xs => exact ⟨(pickL (x :: xs) x g).1, (pickL (x :: xs) x g).2, rfl⟩

theorem wpick_mem (u : Rat) (x : α × Rat) (xs : List (α × Rat)) :
    wpick u x xs ∈ (x :: xs).map Prod.fst := by
  induction xs generalizing u x with
  | nil => simp [wpick]
  | cons y ys ih =>
    unfold wpick
    by_cases h : u < x.2
    · simp [h]
    · simp only [h, if_false]
      have := ih (u - x.2) y
      simp only [List.map_cons, List.mem_cons] at this ⊢
      tauto

theorem choicesW_mem (x : α × Rat) (xs : List (α × Rat)) (g : Rng) :
    (choicesW x xs g).1 ∈ (x :: xs).map Prod.fst := wpick_mem _ _ _

theorem eraseIdx_subset (l : List α) (i : Nat) : l.eraseIdx i ⊆ l := by
  induction l generalizing i with
  | nil => simp [List.eraseIdx]
  | cons x xs ih =>
    match i with
    | 0 => exact fun a ha => List.mem_cons_of_mem _ ha
    | n + 1 =>
      intro a ha
      simp only [List.eraseIdx, List.mem_cons] at ha ⊢
      rcases ha with h | h
      · exact Or.inl h
      · exact Or.inr (ih n h)

theorem sampleK_mem (k : Nat) (l : List α) (g : Rng) :
    ∀ a ∈ (sampleK k l g).1, a ∈ l := by
  induction k generalizing l g with
  | zero => simp [sampleK]
  | succ k ih =>
    match l with
    | [] => simp [sampleK]
    | x :: xs =>
      intro a ha
      simp only [sampleK, List.mem_cons] at ha
      rcases ha with h | h
      · subst h
        refine getD_mem (x :: xs) _ x ?_
        simp only [List.length_cons]
        exact Nat.mod_lt _ (Nat.succ_pos _)
      · exact eraseIdx_subset (x :: xs) _ (ih _ _ _ h)

theorem sampleK_length (k : Nat) (l : List α) (g : Rng) :
    (sampleK k l g).1.length = min k l.length := by
  induction k generalizing l g with
  | zero => simp [sampleK]
  | succ k ih =>
    match l with
    | [] => simp [sampleK]
    | x :: xs =>
      simp only [sampleK, List.length_cons]
      have hi : (randNat g).1 % (xs.length + 1) < (x :: xs).length := by
        simp only [List.length_cons]
        exact Nat.mod_lt _ (Nat.succ_pos _)
      have herase : ((x :: xs).eraseIdx ((randNat g).1 % (xs.length + 1))).length = xs.length := by
        have := List.length_eraseIdx_add_one hi
        simpa using this
      rw [ih, herase]
      omega

theorem abs_round2_sub (q : Rat) : |round2 q - q| ≤ 1 / 200 := by
  unfold round2
  have h := abs_sub_round (q * 100)
  have key : ((round (q * 100) : Int) : Rat) / 100 - q = -((q * 100 - (round (q * 100) : Int)) / 100) := by
    ring
  rw [key, abs_neg, abs_div, abs_of_pos (show (0 : Rat) < 100 by norm_num)]
  linarith

/-- A rational that is a whole number of cents (i.e. already 2-decimal). -/
def isCents (q : Rat) : Prop := ∃ n : Int, q = n / 100

theorem isCents_round2 (q : Rat) : isCents (round2 q) := ⟨round (q * 100), rfl⟩

theorem isCents.round2_eq {q : Rat} (h : isCents q) : round2 q = q := by
  obtain ⟨n, rfl⟩ := h
  unfold round2
  rw [div_mul_cancel₀ _ (by norm_num : (100 : Rat) ≠ 0), round_intCast]

theorem isCents.add {a b : Rat} (ha : isCents a) (hb : isCents b) : isCents (a + b) := by
  obtain ⟨m, rfl⟩ := ha
  obtain ⟨n, rfl⟩ := hb
  exact ⟨m + n, by push_cast; ring⟩

theorem isCents_zero : isCents 0 := ⟨0, by norm_num⟩

theorem isCents_sum (l : List Rat) (h : ∀ x ∈ l, isCents x) : isCents l.sum := by
  induction l with
  | nil => simpa using isCents_zero
  | cons x xs ih =>
    rw [List.sum_cons]
    exact (h x (by simp)).add (ih fun y hy => h y (List.mem_cons_of_mem _ hy))

/- ------------------------------------------------------------------ -/
/- The category taxonomy (PRODUCT_CATEGORIES in the script).           -/
/- ------------------------------------------------------------------ -/

/-- One entry of the PRODUCT_CATEGORIES taxonomy. -/
structure CatInfo where
  subcategories : List String
  priceLo : Rat
  priceHi : Rat
  brands : List String
  attributes : List String
deriving DecidableEq, Inhabited

/-- The fixed category taxonomy of the script. -/
def PRODUCT_CATEGORIES : List (String × CatInfo) :=
  [("Electronics",
    ⟨["Laptops", "Smartphones", "Tablets", "Accessories", "Audio", "Cameras"],
      50, 2000,
      ["Dell", "Apple", "Samsung", "Sony", "HP", "Lenovo", "Asus"],
      ["RAM", "Storage", "Screen Size", "Battery Life", "Weight"]⟩),
   ("Clothing",
    ⟨["Men\x27s Wear", "Women\x27s Wear", "Kids", "Shoes", "Accessories"],
      20, 300,
      ["Nike", "Adidas", "Zara", "H&M", "Levi\x27s", "Gap", "Puma"],
      ["Size", "Color", "Material", "Fit", "Style"]⟩),
   ("Home & Kitchen",
    ⟨["Furniture", "Appliances", "Decor", "Kitchenware", "Bedding"],
      30, 1500,
      ["IKEA", "KitchenAid", "Dyson", "Philips", "Cuisinart", "OXO"],
      ["Dimensions", "Material", "Color", "Warranty", "Energy Rating"]⟩),
   ("Sports & Outdoors",
    ⟨["Fitness", "Camping", "Cycling", "Water Sports", "Team Sports"],
      25, 800,
      ["Nike", "Adidas", "Under Armour", "The North Face", "Columbia", "REI"],
      ["Size", "Weight", "Material", "Durability", "Weather Resistance"]⟩),
   ("Books & Media",
    ⟨["Fiction", "Non-Fiction", "Textbooks", "Magazines", "E-books"],
      10, 150,
      ["Penguin", "HarperCollins", "Simon & Schuster", "Wiley", "O\x27Reilly"],
      ["Pages", "Format", "Language", "Edition", "Publisher"]⟩)]

/-- `list(PRODUCT_CATEGORIES.keys())`. -/
def CATEGORY_NAMES : List String := PRODUCT_CATEGORIES.map Prod.fst

/-- Taxonomy lookup (`PRODUCT_CATEGORIES[category]`). -/
def catInfo (c : String) : CatInfo :=
  (((PRODUCT_CATEGORIES.find? (fun e => e.1 = c)).map Prod.snd)).getD default

/-- The fixed marketing-modifier vocabulary for product names. -/
def PRODUCT_TYPES : List String :=
  ["Premium", "Professional", "Classic", "Modern", "Essential",
   "Pro", "Plus", "Ultra", "Elite", "Standard"]

/-- The optional marketing tags. -/
def MARKETING_TAGS : List String :=
  ["bestseller", "new", "trending", "sale", "featured", "eco-friendly"]

/- ------------------------------------------------------------------ -/
/- Catalog generator (generate_products).                              -/
/- ------------------------------------------------------------------ -/

/-- One generated product row.  `product_id` is the numeric part of the
`PROD-xxxxx` identifier; `attributes` keeps the JSON mapping as an
association list. -/
structure Product where
  product_id : Nat
  name : String
  category : String
  subcategory : String
  brand : String
  base_price : Rat
  discount_percent : Nat
  final_price : Rat
  stock_quantity : Nat
  in_stock : Bool
  rating : Rat
  num_reviews : Nat
  description : String
  attributes : List (String × String)
  tags : List String
  created_date : Int
  updated_date : Int
deriving DecidableEq, Inhabited

/-- The type-aware attribute value generators of `generate_products`. -/
def attrValue (attr : String) (g : Rng) : String × Rng :=
  if attr = "Size" then pickL ["S", "M", "L", "XL", "XXL"] ("S") g
  else if attr = "Color" then fakeString g
  else if attr = "Storage" then pickL ["256GB", "512GB", "1TB", "2TB"] ("256GB") g
  else if attr = "RAM" then pickL ["8GB", "16GB", "32GB", "64GB"] ("8GB") g
  else if attr = "Weight" then
    (toString (randUniform 0.5 5 g).1 ++ " kg", (randUniform 0.5 5 g).2)
  else fakeString g

/-- Fill the sampled attribute names with values, in order. -/
def fillAttrs : List String → Rng → List (String × String) × Rng
  | [], g => ([], g)
  | a :: rest, g =>
    ((a, (attrValue a g).1) :: (fillAttrs rest (attrValue a g).2).1,
      (fillAttrs rest (attrValue a g).2).2)

/-- One iteration of the `generate_products` loop (index `i`). -/
def genProduct (now : Int) (i : Nat) (g : Rng) : Product × Rng :=
  let r1 := pickL CATEGORY_NAMES ("Electronics") g
  let category := r1.1
  let info := catInfo category
  let r2 := pickL info.subcategories ("") r1.2
  let subcategory := r2.1
  let r3 := pickL info.brands ("") r2.2
  let brand := r3.1
  let r4 := pickL PRODUCT_TYPES ("") r3.2
  let name := brand ++ " " ++ r4.1 ++ " " ++ subcategory
  let r5 := randUniform info.priceLo info.priceHi r4.2
  let base_price := r5.1
  let r6 := randUnit r5.2
  let has_discount := r6.1 < 0.25
  let r7 := if has_discount then pickL ([5, 10, 15, 20, 25, 30] : List Nat) 0 r6.2
    else ((0 : Nat), r6.2)
  let discount := r7.1
  let final_price := round2 (base_price * (1 - (discount : Rat) / 100))
  let r8 := sampleK (min 3 info.attributes.length) info.attributes r7.2
  let r9 := fillAttrs r8.1 r8.2
  let r10 := fakeString r9.2
  let r11 := fakeString r10.2
  let description := name ++ " - " ++ r10.1 ++ ". " ++ r11.1
  let r12 := randNatR 0 500 r11.2
  let stock := r12.1
  let r13 := randUniform 3 5 r12.2
  let rating := round1 r13.1
  let r14 := if rating > 4 then randNatR 0 1000 r13.2 else randNatR 0 100 r13.2
  let r15 := randNatR 0 3 r14.2
  let r16 := sampleK r15.1 MARKETING_TAGS r15.2
  let r17 := randInt (now - 730) (now - 183) r16.2
  let r18 := randInt (now - 183) now r17.2
  ({ product_id := i + 1,
     name := name,
     category := category,
     subcategory := subcategory,
     brand := brand,
     base_price := round2 base_price,
     discount_percent := discount,
     final_price := final_price,
     stock_quantity := stock,
     in_stock := decide (stock > 0),
     rating := rating,
     num_reviews := r14.1,
     description := description,
     attributes := r9.1,
     tags := [category, subcategory, brand] ++ r16.1,
     created_date := r17.1,
     updated_date := r18.1 }, r18.2)

/-- The `generate_products` loop from index `i`, `n` iterations left. -/
def genProductsAux (now : Int) : Nat → Nat → Rng → List Product × Rng
  | 0, _, g => ([], g)
  | n + 1, i, g =>
    ((genProduct now i g).1 :: (genProductsAux now n (i + 1) (genProduct now i g).2).1,
      (genProductsAux now n (i + 1) (genProduct now i g).2).2)

/-- `generate_products(n)`. -/
def generate_products (n : Nat) (now : Int) (g : Rng) : List Product × Rng :=
  genProductsAux now n 0 g

/- ------------------------------------------------------------------ -/
/- Customer generator (generate_customers).                            -/
/- ------------------------------------------------------------------ -/

/-- One generated customer row.  `customer_id` is the numeric part of the
`CUST-xxxxxx` identifier. -/
structure Customer where
  customer_id : Nat
  name : String
  email : String
  phone : String
  country : String
  city : String
  signup_date : Int
  last_login : Int
  segment : String
  total_orders : Nat
  total_spent : Rat
  average_order_value : Rat
  preferred_categories : List String
  is_premium : Bool
  email_subscribed : Bool
  churn_risk : String
deriving DecidableEq, Inhabited

/-- Python division, `none` modelling a raised `ZeroDivisionError`. -/
def pydiv (a b : Rat) : Option Rat := if b = 0 then none else some (a / b)

/-- Segment-conditioned sampling of `(total_orders, total_spent,
average_order_value)`; the average is `none` exactly when the source
would raise a `ZeroDivisionError`. -/
def segmentStats (segment : String) (g : Rng) : Nat × Rat × Option Rat × Rng :=
  if segment = "high_value" then
    ((randNatR 50 200 g).1, (randUniform 5000 50000 (randNatR 50 200 g).2).1,
      pydiv (randUniform 5000 50000 (randNatR 50 200 g).2).1 ((randNatR 50 200 g).1 : Rat),
      (randUniform 5000 50000 (randNatR 50 200 g).2).2)
  else if segment = "regular" then
    ((randNatR 10 50 g).1, (randUniform 1000 5000 (randNatR 10 50 g).2).1,
      pydiv (randUniform 1000 5000 (randNatR 10 50 g).2).1 ((randNatR 10 50 g).1 : Rat),
      (randUniform 1000 5000 (randNatR 10 50 g).2).2)
  else if segment = "occasional" then
    ((randNatR 2 10 g).1, (randUniform 100 1000 (randNatR 2 10 g).2).1,
      pydiv (randUniform 100 1000 (randNatR 2 10 g).2).1 ((randNatR 2 10 g).1 : Rat),
      (randUniform 100 1000 (randNatR 2 10 g).2).2)
  else
    ((randNatR 0 2 g).1, (randUniform 0 200 (randNatR 0 2 g).2).1,
      pydiv (randUniform 0 200 (randNatR 0 2 g).2).1 ((max (randNatR 0 2 g).1 1 : Nat) : Rat),
      (randUniform 0 200 (randNatR 0 2 g).2).2)

/-- One iteration of the `generate_customers` loop (index `i`); `none`
models an uncaught exception. -/
def genCustomer (now : Int) (i : Nat) (g : Rng) : Option (Customer × Rng) :=
  let r1 := randInt (now - 1095) now g
  let signup := r1.1
  let r2 := choicesW ("high_value", 0.10)
    [("regular", 0.40), ("occasional", 0.35), ("new", 0.15)] r1.2
  let segment := r2.1
  let st := segmentStats segment r2.2
  match st.2.2.1 with
  | none => none
  | some avg =>
    let g3 := st.2.2.2
    let r4 := randNatR 1 3 g3
    let r5 := sampleK r4.1 CATEGORY_NAMES r4.2
    let prefs := r5.1
    let r6 := fakeString r5.2
    let r7 := fakeString r6.2
    let r8 := fakeString r7.2
    let r9 := fakeString r8.2
    let r10 := fakeString r9.2
    let r11 := randInt signup now r10.2
    let r12 := randUnit r11.2
    let r13 := randUnit r12.2
    let r14 := choicesW ("low", 0.6) [("medium", 0.3), ("high", 0.1)] r13.2
    some ({ customer_id := i + 1,
            name := r6.1,
            email := r7.1,
            phone := r8.1,
            country := r9.1,
            city := r10.1,
            signup_date := signup,
            last_login := r11.1,
            segment := segment,
            total_orders := st.1,
            total_spent := round2 st.2.1,
            average_order_value := round2 avg,
            preferred_categories := prefs,
            is_premium := decide (r12.1 < 0.15),
            email_subscribed := decide (r13.1 < 0.60),
            churn_risk := r14.1 }, r14.2)

/-- The `generate_customers` loop from index `i`, `n` iterations left. -/
def genCustomersAux (now : Int) : Nat → Nat → Rng → Option (List Customer × Rng)
  | 0, _, g => some ([], g)
  | n + 1, i, g =>
    match genCustomer now i g with
    | none => none
    | some r =>
      match genCustomersAux now n (i + 1) r.2 with
      | none => none
      | some r2 => some (r.1 :: r2.1, r2.2)

/-- `generate_customers(n)`. -/
def generate_customers (n : Nat) (now : Int) (g : Rng) : Option (List Customer × Rng) :=
  genCustomersAux now n 0 g

/- ------------------------------------------------------------------ -/
/- Order generator (generate_orders).                                  -/
/- ------------------------------------------------------------------ -/

/-- One generated order row.  `delivery_date` is `none` when the CSV cell
is empty. -/
structure Order where
  order_id : Nat
  customer_id : Nat
  order_date : Int
  status : String
  num_items : Nat
  subtotal : Rat
  tax : Rat
  shipping : Rat
  total : Rat
  payment_method : String
  shipping_address : String
  delivery_date : Option Int
deriving DecidableEq, Inhabited

/-- One generated order-item row. -/
structure OrderItem where
  order_id : Nat
  product_id : Nat
  product_name : String
  quantity : Nat
  unit_price : Rat
  total_price : Rat
deriving DecidableEq, Inhabited

/-- Candidate product pool for one order: with probability 0.7 (and a
non-empty preferred list) the catalog filtered to the customer's preferred
categories, otherwise the full catalog.  There is no fallback when the
filtered pool is empty. -/
def orderPool (products : List Product) (customer : Customer) (u : Rat) : List Product :=
  if u < 0.7 ∧ customer.preferred_categories ≠ [] then
    products.filter (fun p => decide (p.category ∈ customer.preferred_categories))
  else products

/-- The financial fields of one order, from the selected products:
`(raw subtotal, tax, shipping, total)` with `tax = round(subtotal*0.08, 2)`,
`shipping = 0` when `subtotal > 50` else `9.99`, and
`total = round(subtotal + tax + shipping, 2)`. -/
def orderFinancials (selected : List Product) : Rat × Rat × Rat × Rat :=
  ((selected.map Product.final_price).sum,
    round2 ((selected.map Product.final_price).sum * 0.08),
    (if (selected.map Product.final_price).sum > 50 then (0 : Rat) else 9.99),
    round2 ((selected.map Product.final_price).sum +
      round2 ((selected.map Product.final_price).sum * 0.08) +
      (if (selected.map Product.final_price).sum > 50 then (0 : Rat) else 9.99)))

/-- Delivery date: `order_date + randint(2, 10)` when the status is
`delivered`, otherwise absent (the `randint` is only evaluated in the
delivered branch, as in the source's conditional expression). -/
def orderDelivery (status : String) (order_date : Int) (g : Rng) : Option Int × Rng :=
  if status = "delivered" then
    (some (order_date + (randInt 2 10 g).1), (randInt 2 10 g).2)
  else (none, g)

/-- Recency-conditioned order status. -/
def orderStatus (daysSince : Int) (g : Rng) : String × Rng :=
  if daysSince < 2 then pickL ["pending", "processing"] ("pending") g
  else if daysSince < 7 then pickL ["shipped", "in_transit"] ("shipped") g
  else choicesW ("delivered", 0.85) [("cancelled", 0.10), ("returned", 0.05)] g

/-- The order-items loop: one item per selected product, quantity from
the 80/15/5 distribution, `total_price = round(unit_price * quantity, 2)`. -/
def genOrderItems (oid : Nat) : List Product → Rng → List OrderItem × Rng
  | [], g => ([], g)
  | p :: rest, g =>
    ({ order_id := oid,
       product_id := p.product_id,
       product_name := p.name,
       quantity := (choicesW ((1 : Nat), 0.8) [(2, 0.15), (3, 0.05)] g).1,
       unit_price := p.final_price,
       total_price := round2 (p.final_price *
         ((choicesW ((1 : Nat), 0.8) [(2, 0.15), (3, 0.05)] g).1 : Rat)) } ::
        (genOrderItems oid rest (choicesW ((1 : Nat), 0.8) [(2, 0.15), (3, 0.05)] g).2).1,
      (genOrderItems oid rest (choicesW ((1 : Nat), 0.8) [(2, 0.15), (3, 0.05)] g).2).2)

/-- One iteration of the `generate_orders` loop (index `i`); `none` models
the `ValueError` raised by `df_customers.sample(1)` on an empty table. -/
def genOrder (now : Int) (customers : List Customer) (products : List Product)
    (i : Nat) (g : Rng) : Option ((Order × List OrderItem) × Rng) :=
  match sample1 customers g with
  | none => none
  | some cg =>
    let customer := cg.1
    let r1 := randInt customer.signup_date now cg.2
    let order_date := r1.1
    let r2 := choicesW ((1 : Nat), 0.5) [(2, 0.25), (3, 0.15), (4, 0.08), (5, 0.02)] r1.2
    let num_items := r2.1
    let r3 := randUnit r2.2
    let pool := orderPool products customer r3.1
    let r4 := sampleK (min num_items pool.length) pool r3.2
    let selected := r4.1
    let fin := orderFinancials selected
    let r5 := orderStatus (now - order_date) r4.2
    let status := r5.1
    let r6 := pickL ["credit_card", "debit_card", "paypal", "apple_pay"] ("credit_card") r5.2
    let r7 := fakeString r6.2
    let r8 := fakeString r7.2
    let r9 := fakeString r8.2
    let r10 := orderDelivery status order_date r9.2
    let items := genOrderItems (i + 1) selected r10.2
    some (({ order_id := i + 1,
             customer_id := customer.customer_id,
             order_date := order_date,
             status := status,
             num_items := num_items,
             subtotal := round2 fin.1,
             tax := fin.2.1,
             shipping := fin.2.2.1,
             total := fin.2.2.2,
             payment_method := r6.1,
             shipping_address := r7.1 ++ ", " ++ r8.1 ++ ", " ++ r9.1,
             delivery_date := r10.1 }, items.1), items.2)

/-- The `generate_orders` loop from index `i`, `n` iterations left;
orders and order items are accumulated into the two output tables. -/
def genOrdersAux (now : Int) (customers : List Customer) (products : List Product) :
    Nat → Nat → Rng → Option ((List Order × List OrderItem) × Rng)
  | 0, _, g => some (([], []), g)
  | n + 1, i, g =>
    match genOrder now customers products i g with
    | none => none
    | some r =>
      match genOrdersAux now customers products n (i + 1) r.2 with
      | none => none
      | some r2 => some ((r.1.1 :: r2.1.1, r.1.2 ++ r2.1.2), r2.2)

/-- `generate_orders(df_customers, df_products, n)`. -/
def generate_orders (now : Int) (customers : List Customer) (products : List Product)
    (n : Nat) (g : Rng) : Option ((List Order × List OrderItem) × Rng) :=
  genOrdersAux now customers products n 0 g

/- ------------------------------------------------------------------ -/
/- Support conversation generator (generate_support_conversations).    -/
/- ------------------------------------------------------------------ -/

/-- `list(SUPPORT_TEMPLATES.keys())`, in insertion order. -/
def ISSUE_TYPES : List String :=
  ["product_inquiry", "order_status", "return_request",
   "technical_issue", "price_inquiry", "recommendation"]

/-- One generated support-conversation row.  The customer and agent
messages are template renderings (template index and filled slot values);
`ref_order_id` records the order id embedded in the messages of an
`order_status` conversation. -/
structure Conversation where
  conversation_id : Nat
  customer_id : Nat
  date : Int
  channel : String
  issue_type : String
  customer_message : String
  agent_message : String
  agent_id : Nat
  sentiment : String
  outcome : String
  resolution_time_minutes : Nat
  satisfaction_score : Nat
  follow_up_needed : Bool
  ref_order_id : Option Nat
deriving DecidableEq, Inhabited

/-- The issue-category branch of one conversation attempt: fills the
customer-message template and the agent-response template for the drawn
issue category.  The result is the rendered messages plus the referenced
order id (for `order_status`); the outer `none` models an uncaught
exception (`.sample(1)` / `.iloc[0]` on an empty frame), the inner `none`
the `continue` that abandons an `order_status` attempt for a customer
without orders. -/
def convBranch (now : Int) (customer : Customer) (products : List Product)
    (orders : List Order) (issue : String) (tidx : Nat) (g : Rng) :
    Option (Option (String × String × Option Nat) × Rng) :=
  if issue = "product_inquiry" then
    let rc := pickL CATEGORY_NAMES ("Electronics") g
    let category := rc.1
    let rpt := pickL (catInfo category).subcategories ("") rc.2
    let rf := pickL ["good battery life", "high quality", "under $500", "5-star rating"]
      ("") rpt.2
    let rr := pickL ["fits my budget", "works for gaming", "is portable", "has warranty"]
      ("") rf.2
    let ru := pickL ["work", "school", "travel", "gift"] ("") rr.2
    let message := toString tidx ++ "|" ++ rpt.1 ++ "|" ++ rf.1 ++ "|" ++ rr.1 ++ "|" ++ ru.1
    let rRT := randNat ru.2
    match sample1 (products.filter (fun p => decide (p.category = category))) rRT.2 with
    | none => none
    | some pg =>
      let rfe := pickL ["excellent performance", "great value", "top ratings"] ("") pg.2
      let rre := pickL
        ["it matches your needs", "it\x27s within budget", "it\x27s highly rated"]
        ("") rfe.2
      let rcount := randNatR 5 20 rre.2
      let response := toString (rRT.1 % 3) ++ "|" ++ pg.1.name ++ "|" ++ rfe.1 ++ "|" ++
        toString pg.1.rating.num ++ "|" ++ rre.1 ++ "|" ++ toString rcount.1
      some (some (message, response, none), rcount.2)
  else if issue = "order_status" then
    match sample1 (orders.filter (fun o => decide (o.customer_id = customer.customer_id))) g with
    | none => some (none, g)
    | some og =>
      let order := og.1
      let rdays := randNatR 3 15 og.2
      let message := toString tidx ++ "|" ++ toString order.order_id ++ "|" ++
        toString rdays.1
      let rRT := randNat rdays.2
      let rdate := randInt now (now + 7) rRT.2
      let rcarrier := pickL ["FedEx", "UPS", "USPS", "DHL"] ("") rdate.2
      let rtrack := randNatR 1000000000 9999999999 rcarrier.2
      let response := toString (rRT.1 % 3) ++ "|" ++ toString order.order_id ++ "|" ++
        order.status ++ "|" ++ toString rdate.1 ++ "|" ++ rcarrier.1 ++ "|" ++
        toString rtrack.1
      some (some (message, response, some order.order_id), rtrack.2)
  else if issue = "return_request" then
    match sample1 products g with
    | none => none
    | some pg =>
      let ri := pickL ["quality", "size", "color", "functionality"] ("") pg.2
      let rd := pickL ["a scratch", "missing parts", "wrong color", "damage"] ("") ri.2
      let message := toString tidx ++ "|" ++ pg.1.name ++ "|" ++ ri.1 ++ "|" ++ rd.1
      let rRT := randNat rd.2
      let response := toString (rRT.1 % 3) ++ "|" ++ pg.1.name ++ "|" ++ customer.email
      some (some (message, response, none), rRT.2)
  else if issue = "technical_issue" then
    match sample1 (products.filter (fun p => decide (p.category = "Electronics"))) g with
    | none => none
    | some pg =>
      let rcomp := pickL ["screen", "battery", "charger", "button"] ("") pg.2
      let rtp := pickL ["2 days", "a week", "a month"] ("") rcomp.2
      let rerr := pickL ["Won\x27t turn on", "Keeps crashing", "Not charging"] ("") rtp.2
      let message := toString tidx ++ "|" ++ pg.1.name ++ "|" ++ rcomp.1 ++ "|" ++
        rtp.1 ++ "|" ++ rerr.1
      let rRT := randNat rerr.2
      let rsol := pickL
        ["reset to factory settings", "update firmware", "contact manufacturer"]
        ("") rRT.2
      let rdiag := pickL ["a software issue", "hardware malfunction", "compatibility issue"]
        ("") rsol.2
      let response := toString (rRT.1 % 3) ++ "|" ++ rsol.1 ++ "|" ++ rdiag.1
      some (some (message, response, none), rdiag.2)
  else if issue = "price_inquiry" then
    match sample1 products g with
    | none => none
    | some pg =>
      let rcomp := pickL ["Amazon", "Best Buy", "Walmart"] ("") pg.2
      let message := toString tidx ++ "|" ++ pg.1.name ++ "|" ++
        toString (round2 pg.1.base_price).num ++ "|" ++
        toString (round2 pg.1.final_price).num ++ "|" ++ rcomp.1
      let rRT := randNat rcomp.2
      let rreason := pickL ["a promotion ending", "market changes", "high demand"]
        ("") rRT.2
      let rdisc := pickL ([5, 10, 15] : List Nat) 0 rreason.2
      let rqty := pickL ([3, 5, 10] : List Nat) 0 rdisc.2
      let response := toString (rRT.1 % 3) ++ "|" ++ rreason.1 ++ "|" ++
        toString rdisc.1 ++ "|" ++ toString rqty.1
      some (some (message, response, none), rqty.2)
  else
    let rc := pickL CATEGORY_NAMES ("Electronics") g
    let ptype := (catInfo rc.1).subcategories.headD ""
    let rb := pickL ([100, 200, 500, 1000] : List Nat) 0 rc.2
    let rdesc := pickL ["travels a lot", "works from home", "is a student", "loves tech"]
      ("") rb.2
    let rocc := pickL ["birthday", "anniversary", "graduation", "holiday"] ("") rdesc.2
    let message := toString tidx ++ "|" ++ ptype ++ "|" ++ toString rb.1 ++ "|" ++
      rdesc.1 ++ "|" ++ rocc.1
    let rRT := randNat rocc.2
    let rsel := sampleK (min 3 products.length) products rRT.2
    match rsel.1 with
    | [] => none
    | r0 :: rest =>
      let rreason := pickL ["of the quality", "it\x27s popular", "great reviews"]
        ("") rsel.2
      let rspec := pickL ["comes with warranty", "free shipping", "on sale"] ("") rreason.2
      let rocc2 := pickL ["this occasion", "anyone", "that special someone"] ("") rspec.2
      let second := match rest with
        | [] => "Another Product"
        | r1 :: _ => r1.name
      let response := toString (rRT.1 % 3) ++ "|" ++ r0.name ++ "|" ++ second ++ "|" ++
        rreason.1 ++ "|" ++ toString (round2 r0.final_price).num ++ "|" ++ rspec.1 ++
        "|" ++ rocc2.1
      some (some (message, response, none), rocc2.2)

/-- One iteration of the `generate_support_conversations` loop (index `i`).
The outer `none` models an uncaught exception; the inner `none` models the
`continue` that silently abandons an `order_status` attempt when the
customer has no orders (or the order table is empty). -/
def genConversation (now : Int) (customers : List Customer) (products : List Product)
    (orders : List Order) (i : Nat) (g : Rng) : Option (Option Conversation × Rng) :=
  match sample1 customers g with
  | none => none
  | some cg =>
    let customer := cg.1
    let rIssue := pickL ISSUE_TYPES ("product_inquiry") cg.2
    let issue := rIssue.1
    let rT := randNat rIssue.2
    match convBranch now customer products orders issue (rT.1 % 3) rT.2 with
    | none => none
    | some (none, g') => some (none, g')
    | some (some msgRef, g') =>
      let rdate := randInt (now - 183) now g'
      let rres := randNatR 5 120 rdate.2
      let rsent := choicesW ("positive", 0.6) [("neutral", 0.3), ("negative", 0.1)] rres.2
      let rout := choicesW ("resolved", 0.75) [("escalated", 0.15), ("pending", 0.10)] rsent.2
      let rsat := if rout.1 = "resolved" then randNatR 3 5 rout.2 else randNatR 1 3 rout.2
      let rchan := pickL ["chat", "email", "phone"] ("chat") rsat.2
      let ragent := randNatR 1 50 rchan.2
      let rfu := randUnit ragent.2
      some (some { conversation_id := i + 1,
                   customer_id := customer.customer_id,
                   date := rdate.1,
                   channel := rchan.1,
                   issue_type := issue,
                   customer_message := msgRef.1,
                   agent_message := msgRef.2.1,
                   agent_id := ragent.1,
                   sentiment := rsent.1,
                   outcome := rout.1,
                   resolution_time_minutes := rres.1,
                   satisfaction_score := rsat.1,
                   follow_up_needed := decide (rfu.1 < 0.15),
                   ref_order_id := msgRef.2.2 }, rfu.2)

/-- The `generate_support_conversations` loop from index `i`, `n`
iterations left; skipped attempts contribute nothing to the output. -/
def genConversationsAux (now : Int) (customers : List Customer) (products : List Product)
    (orders : List Order) : Nat → Nat → Rng → Option (List Conversation × Rng)
  | 0, _, g => some ([], g)
  | n + 1, i, g =>
    match genConversation now customers products orders i g with
    | none => none
    | some r =>
      match genConversationsAux now customers products orders n (i + 1) r.2 with
      | none => none
      | some r2 =>
        match r.1 with
        | none => some (r2.1, r2.2)
        | some conv => some (conv :: r2.1, r2.2)

/-- `generate_support_conversations(df_customers, df_products, df_orders, n)`. -/
def generate_support_conversations (now : Int) (customers : List Customer)
    (products : List Product) (orders : List Order) (n : Nat) (g : Rng) :
    Option (List Conversation × Rng) :=
  genConversationsAux now customers products orders n 0 g

/- ------------------------------------------------------------------ -/
/- Knowledge base and embeddings.                                      -/
/- ------------------------------------------------------------------ -/

/-- One knowledge-base article.  The long `content` bodies are fixed
string constants in the source (no randomness); only the randomized
view / helpful-vote counters are modelled. -/
structure KBArticle where
  doc_id : String
  category : String
  title : String
  tags : String
  views : Nat
  helpful_votes : Nat
deriving DecidableEq, Inhabited

/-- `generate_knowledge_base()`: eight fixed articles with randomized
counters, in source order. -/
def generate_knowledge_base (g : Rng) : List KBArticle × Rng :=
  let v1 := randNatR 1000 10000 g
  let h1 := randNatR 100 1000 v1.2
  let v2 := randNatR 5000 15000 h1.2
  let h2 := randNatR 500 2000 v2.2
  let v3 := randNatR 2000 8000 h2.2
  let h3 := randNatR 200 1000 v3.2
  let v4 := randNatR 3000 10000 h3.2
  let h4 := randNatR 300 1500 v4.2
  let v5 := randNatR 4000 12000 h4.2
  let h5 := randNatR 400 1800 v5.2
  let v6 := randNatR 10000 25000 h5.2
  let h6 := randNatR 1000 3000 v6.2
  let v7 := randNatR 8000 20000 h6.2
  let h7 := randNatR 800 2500 v7.2
  let v8 := randNatR 15000 35000 h7.2
  let h8 := randNatR 1500 4000 v8.2
  ([⟨"KB-001", "shipping", "Shipping Policy and Delivery Times",
      "shipping,delivery,tracking,international", v1.1, h1.1⟩,
    ⟨"KB-002", "returns", "Return and Refund Policy",
      "returns,refunds,exchanges,policy", v2.1, h2.1⟩,
    ⟨"KB-003", "products", "Product Warranty and Support",
      "warranty,support,technical,coverage", v3.1, h3.1⟩,
    ⟨"KB-004", "account", "Account Management and Security",
      "account,security,privacy,password", v4.1, h4.1⟩,
    ⟨"KB-005", "payment", "Payment Methods and Billing",
      "payment,billing,security,methods", v5.1, h5.1⟩,
    ⟨"KB-006", "promotions", "Discounts, Coupons, and Promotions",
      "discounts,promotions,coupons,loyalty", v6.1, h6.1⟩,
    ⟨"KB-007", "products", "Product Selection Guide - Electronics",
      "electronics,laptops,smartphones,guide", v7.1, h7.1⟩,
    ⟨"KB-008", "troubleshooting", "Common Issues and Solutions",
      "troubleshooting,issues,solutions,help", v8.1, h8.1⟩], h8.2)

/-- A raw 384-dimensional draw vector (`np.random.randn(384)`). -/
def randnVec : Nat → Rng → List Rat × Rng
  | 0, g => ([], g)
  | n + 1, g => ((next g).1 :: (randnVec n (next g).2).1, (randnVec n (next g).2).2)

/-- `generate_product_embeddings(df_products)`: one raw 384-dimensional
vector per product, keyed by product id.  The source L2-normalizes each
vector; the normalized vector is a deterministic function of the raw one
(and the Euclidean norm is irrational in general), so the mapping is
modelled by the raw vectors. -/
def generate_product_embeddings : List Product → Rng → List (Nat × List Rat) × Rng
  | [], g => ([], g)
  | p :: rest, g =>
    ((p.product_id, (randnVec 384 g).1) ::
        (generate_product_embeddings rest (randnVec 384 g).2).1,
      (generate_product_embeddings rest (randnVec 384 g).2).2)

/- ------------------------------------------------------------------ -/
/- Orchestrator (generate_all_data).                                   -/
/- ------------------------------------------------------------------ -/

/-- The full set of generated tables. -/
structure Tables where
  products : List Product
  customers : List Customer
  orders : List Order
  order_items : List OrderItem
  conversations : List Conversation
  knowledge_base : List KBArticle
  embeddings : List (Nat × List Rat)

/-- `generate_all_data(n_products, n_customers, n_orders, n_conversations)`:
the components run in dependency order on the single seeded stream; `none`
models an uncaught exception in any component. -/
def generate_all_data (nP nC nO nConv : Nat) (now : Int) (g : Rng) : Option Tables :=
  let rp := generate_products nP now g
  match generate_customers nC now rp.2 with
  | none => none
  | some rc =>
    match generate_orders now rc.1 rp.1 nO rc.2 with
    | none => none
    | some ro =>
      match generate_support_conversations now rc.1 rp.1 ro.1.1 nConv ro.2 with
      | none => none
      | some rv =>
        let rk := generate_knowledge_base rv.2
        let re := generate_product_embeddings rp.1 rk.2
        some ⟨rp.1, rc.1, ro.1.1, ro.1.2, rv.1, rk.1, re.1⟩

/- ------------------------------------------------------------------ -/
/- Concrete inputs used in the claim evaluations.                      -/
/- ------------------------------------------------------------------ -/

/-- A catalog product with an exact 2-decimal final price, used by the C1
evaluation. -/
def c1Product : Product :=
  ⟨1, "P", "Electronics", "Laptops", "Dell", 100, 0, 100, 1, true, 3, 0, "d", [], [], 0, 0⟩

/-- A customer preferring Electronics, used by the C1 evaluation. -/
def c1Customer : Customer :=
  ⟨1, "n", "e", "p", "c", "ci", 0, 0, "regular", 10, 1000, 100,
    ["Electronics"], false, false, "low"⟩

/-- The draw stream of the C1 evaluation: one order of one Electronics
item with quantity 2 (the 0.15-probability quantity branch). -/
def c1g : Rng := listRng [0, 0, 0, 0, 0, 0, 0, 0, 0, 0, 0, 9/10]

/-- An Electronics product, used by the C2 evaluation. -/
def c2Product : Product :=
  ⟨1, "P", "Electronics", "Laptops", "Dell", 100, 0, 100, 1, true, 3, 0, "d", [], [], 0, 0⟩

/-- A customer whose only preferred category (Clothing) has no product in
the C2 catalog. -/
def c2Customer : Customer :=
  ⟨1, "n", "e", "p", "c", "ci", 0, 0, "regular", 10, 1000, 100,
    ["Clothing"], false, false, "low"⟩

/-- A Clothing-only catalog entry, used by the C3 evaluation. -/
def c3Product : Product :=
  ⟨1, "P", "Clothing", "Shoes", "Nike", 100, 0, 100, 1, true, 3, 0, "d", [], [], 0, 0⟩

/-- A customer used by the C3 evaluation. -/
def c3Customer : Customer :=
  ⟨1, "n", "e", "p", "c", "ci", 0, 0, "regular", 10, 1000, 100,
    ["Clothing"], false, false, "low"⟩

/-- The draw stream of the C3 evaluation: the drawn issue category is
`technical_issue` (index 3). -/
def c3g : Rng := listRng [0, 3, 0]

/-- The draw stream of the C6 evaluation: category Books and Media
(index 4), raw base price `10 + 140 * (3/70000) = 10.006`, a discount of
30 percent (index 5). -/
def c6g : Rng := listRng [4, 0, 0, 0, 3/70000, 0, 5]

/- ------------------------------------------------------------------ -/
/- Claims.                                                             -/
/- ------------------------------------------------------------------ -/

set_option maxRecDepth 100000 in
/-- C1: the spec states that for every generated order the sum of the
`total_price` values of its OrderItem rows equals the order's `subtotal`
within rounding, each `total_price` being `round(unit_price * quantity, 2)`.
The code computes `subtotal` as the sum of the selected products' unit
final prices, ignoring quantity, while the emitted items carry
`total_price = round(unit_price * quantity, 2)`: on the concrete run below
(one item, unit price 100, quantity 2, a 15 percent-probability draw) the
order's subtotal is 100 while the sum of its items' total prices is 200 —
the items do satisfy `total_price = round(unit_price * quantity, 2)`, but
their sum differs from the subtotal by far more than rounding. -/
theorem C1_subtotal_ignores_quantity :
    ((generate_orders 1000 [c1Customer] [c1Product] 1 c1g).map
      (fun r => (r.1.1.map Order.subtotal,
        r.1.2.map (fun it => (it.quantity, it.unit_price, it.total_price)),
        (r.1.2.map OrderItem.total_price).sum))
      = some ([100], [(2, 100, 200)], 200)) ∧
    round2 ((100 : Rat) * 2) = 200 ∧ (200 : Rat) ≠ 100 := by
  refine ⟨by with_unfolding_all decide, by with_unfolding_all decide,
    by with_unfolding_all decide⟩

set_option maxRecDepth 100000 in
/-- C2 (counterexample): the claim states that an empty
preferred-category restriction falls back to the full catalog, so every
order has 1 to 5 item rows.  In the code there is no such fallback: on
this concrete run (non-empty catalog, the 70 percent branch taken, the
customer's preferred category absent from the catalog) the single
generated order is emitted with zero OrderItem rows. -/
theorem C2_no_fallback_counterexample :
    (generate_orders 1000 [c2Customer] [c2Product] 1 (listRng [])).map
      (fun r => (r.1.1.length, r.1.2.length)) = some (1, 0) := by
  with_unfolding_all decide

set_option maxRecDepth 100000 in
/-- C3 (counterexample): the claim states that with a non-empty catalog
and non-empty customer table every draw of the conversation generator is
from a non-empty domain, so the generator never fails.  On this concrete
run the catalog is non-empty but contains no Electronics product, the
drawn issue category is `technical_issue`, and the Electronics-restricted
`.sample(1)` raises (modelled by `none`). -/
theorem C3_technical_issue_counterexample :
    generate_support_conversations 1000 [c3Customer] [c3Product] [] 1 c3g = none := by
  with_unfolding_all rfl

set_option maxRecDepth 100000 in
/-- C4 (counterexample): the claim states that two runs with the same
seed and the same requested counts yield identical output tables.  The
pipeline also depends on the wall clock (`datetime.now()` / faker's
`today` anchor every sampled date and the recency-conditioned order
status): with the same seed 42 and the same counts, runs at two different
clock values produce different order tables. -/
theorem C4_same_seed_different_clock :
    (generate_all_data 1 1 1 0 10000 (mkRng 42)).map (fun t => t.orders) ≠
      (generate_all_data 1 1 1 0 20000 (mkRng 42)).map (fun t => t.orders) := by
  with_unfolding_all decide

/-- C4 (amended): with the same seed, the same requested counts and the
same clock value, two runs of the full pipeline produce identical output
tables — the pipeline output is a function of (seed, counts, clock) only. -/
theorem C4_amended_deterministic (nP nC nO nConv : Nat) (now₁ now₂ : Int) (s₁ s₂ : Nat)
    (hs : s₁ = s₂) (hn : now₁ = now₂) :
    generate_all_data nP nC nO nConv now₁ (mkRng s₁) =
      generate_all_data nP nC nO nConv now₂ (mkRng s₂) := by
  rw [hs, hn]

/-- Witness for the amended C4 theorem at concrete inputs. -/
theorem C4_amended_deterministic_witness :
    generate_all_data 1 1 1 0 5 (mkRng 42) = generate_all_data 1 1 1 0 5 (mkRng 42) :=
  C4_amended_deterministic 1 1 1 0 5 5 42 42 rfl rfl

set_option maxRecDepth 100000 in
/-- C6 (counterexample): the claim states that the emitted `final_price`
equals `round(base_price * (1 - discount/100), 2)` computed from the
emitted `base_price` field.  The code computes `final_price` from the
unrounded sampled base price: on this concrete run the raw price is
10.006, the emitted `base_price` is 10.01, the discount is 30, the
emitted `final_price` is `round(10.006 * 0.7, 2) = 7.00`, while
`round(10.01 * 0.7, 2) = 7.01`. -/
theorem C6_final_price_counterexample :
    ((generate_products 1 1000 c6g).1.map
      (fun p => (p.base_price, p.discount_percent, p.final_price))
      = [((1001 : Rat)/100, 30, 7)]) ∧
    round2 ((1001 : Rat)/100 * (1 - (30 : Rat)/100)) ≠ 7 := by
  refine ⟨by with_unfolding_all decide, by with_unfolding_all decide⟩

/-- C9: every generated product has `created_date ≤ updated_date`: the
creation date is drawn from the window [now - 2 years, now - 6 months]
and the update date from [now - 6 months, now], and the two windows meet
only at their shared endpoint. -/
theorem C9_created_le_updated (n : Nat) (now : Int) (g : Rng) :
    ∀ p ∈ (generate_products n now g).1, p.created_date ≤ p.updated_date := by
  have single : ∀ (i : Nat) (g' : Rng),
      (genProduct now i g').1.created_date ≤ (genProduct now i g').1.updated_date := by
    intro i g'
    unfold genProduct
    dsimp only
    exact le_trans (randInt_le (now - 730) (now - 183) _ (by omega)).2
      (randInt_le (now - 183) now _ (by omega)).1
  unfold generate_products
  generalize 0 = i
  induction n generalizing i g with
  | zero => simp [genProductsAux]
  | succ n ih =>
    intro p hp
    simp only [genProductsAux, List.mem_cons] at hp
    rcases hp with h | h
    · rw [h]; exact single i g
    · exact ih _ _ _ h

set_option maxRecDepth 100000 in
/-- Witness for C9 at a concrete input: the single product generated by
the run below satisfies the date ordering. -/
theorem C9_created_le_updated_witness :
    ((generate_products 1 1000 (listRng [])).1.headD default).created_date ≤
      ((generate_products 1 1000 (listRng [])).1.headD default).updated_date :=
  C9_created_le_updated 1 1000 (listRng [])
    ((generate_products 1 1000 (listRng [])).1.headD default)
    (by with_unfolding_all decide)

/-- The segment-conditioned average is always defined and equals
`total_spent / max(total_orders, 1)` (for the three non-new segments the
sampled order count is at least 2, so the `max` is the count itself). -/
theorem segmentStats_avg (seg : String) (g : Rng) :
    (segmentStats seg g).2.2.1 =
      some ((segmentStats seg g).2.1 / ((max (segmentStats seg g).1 1 : Nat) : Rat)) := by
  unfold segmentStats
  split_ifs with h1 h2 h3
  · dsimp only
    have h50 := (randNatR_le 50 200 g (by omega)).1
    have hne : ((randNatR 50 200 g).1 : Rat) ≠ 0 := Nat.cast_ne_zero.mpr (by omega)
    have hmax : max (randNatR 50 200 g).1 1 = (randNatR 50 200 g).1 := by omega
    rw [pydiv, if_neg hne, hmax]
  · dsimp only
    have h10 := (randNatR_le 10 50 g (by omega)).1
    have hne : ((randNatR 10 50 g).1 : Rat) ≠ 0 := Nat.cast_ne_zero.mpr (by omega)
    have hmax : max (randNatR 10 50 g).1 1 = (randNatR 10 50 g).1 := by omega
    rw [pydiv, if_neg hne, hmax]
  · dsimp only
    have h2b := (randNatR_le 2 10 g (by omega)).1
    have hne : ((randNatR 2 10 g).1 : Rat) ≠ 0 := Nat.cast_ne_zero.mpr (by omega)
    have hmax : max (randNatR 2 10 g).1 1 = (randNatR 2 10 g).1 := by omega
    rw [pydiv, if_neg hne, hmax]
  · dsimp only
    have hne : ((max (randNatR 0 2 g).1 1 : Nat) : Rat) ≠ 0 := Nat.cast_ne_zero.mpr (by omega)
    rw [pydiv, if_neg hne]

/-- Rounding both the average and the spend perturbs the product
`avg * M` by at most `M/200 + 1/200`. -/
theorem avg_bound (spent M : Rat) (hM : 1 ≤ M) :
    |round2 (spent / M) * M - round2 spent| ≤ (M + 1) / 200 := by
  have h1 := abs_round2_sub (spent / M)
  have h2 := abs_round2_sub spent
  have hM0 : M ≠ 0 := by linarith
  have key : round2 (spent / M) * M - round2 spent
      = (round2 (spent / M) - spent / M) * M - (round2 spent - spent) := by
    rw [sub_mul, div_mul_cancel₀ _ hM0]
    ring
  rw [key]
  calc |(round2 (spent / M) - spent / M) * M - (round2 spent - spent)|
      ≤ |(round2 (spent / M) - spent / M) * M| + |round2 spent - spent| := abs_sub _ _
    _ = |round2 (spent / M) - spent / M| * M + |round2 spent - spent| := by
        rw [abs_mul, abs_of_pos (by linarith : (0 : Rat) < M)]
    _ ≤ (1 / 200) * M + 1 / 200 := by
        have := mul_le_mul_of_nonneg_right h1 (by linarith : (0 : Rat) ≤ M)
        linarith
    _ = (M + 1) / 200 := by ring

/-- One generated customer: the generator never raises, the emitted
`last_login` is at least the `signup_date`, and the emitted aggregates are
rounding-consistent. -/
theorem genCustomer_spec (now : Int) (i : Nat) (g : Rng) :
    ∃ c g', genCustomer now i g = some (c, g') ∧
      c.signup_date ≤ c.last_login ∧
      |c.average_order_value * ((max c.total_orders 1 : Nat) : Rat) - c.total_spent| ≤
        (((max c.total_orders 1 : Nat) : Rat) + 1) / 200 := by
  unfold genCustomer
  dsimp only
  rw [segmentStats_avg]
  dsimp only
  refine ⟨_, _, rfl, ?_, ?_⟩
  · dsimp only
    have hsign := randInt_le (now - 1095) now g (by omega)
    exact (randInt_le _ now _ hsign.2).1
  · dsimp only
    have hM : (1 : Rat) ≤ ((max (segmentStats
        (choicesW ("high_value", 0.10)
          [("regular", 0.40), ("occasional", 0.35), ("new", 0.15)]
          (randInt (now - 1095) now g).2).1
        (choicesW ("high_value", 0.10)
          [("regular", 0.40), ("occasional", 0.35), ("new", 0.15)]
          (randInt (now - 1095) now g).2).2).1 1 : Nat) : Rat) := by
      exact_mod_cast Nat.le_max_right _ _
    exact avg_bound _ _ hM

/-- C8: customer generation is total (in particular the
average-order-value division never raises, not even for a new-segment
customer with zero orders), and for every generated customer
`average_order_value * max(total_orders, 1)` equals `total_spent` within
rounding, and `last_login` is not before `signup_date`. -/
theorem C8_customer_aggregates (n : Nat) (now : Int) (g : Rng) :
    ∃ cs g', generate_customers n now g = some (cs, g') ∧
      ∀ c ∈ cs,
        c.signup_date ≤ c.last_login ∧
        |c.average_order_value * ((max c.total_orders 1 : Nat) : Rat) - c.total_spent| ≤
          (((max c.total_orders 1 : Nat) : Rat) + 1) / 200 := by
  unfold generate_customers
  generalize 0 = i
  induction n generalizing i g with
  | zero => exact ⟨[], g, rfl, by simp⟩
  | succ n ih =>
    obtain ⟨c, g1, hc, hp1, hp2⟩ := genCustomer_spec now i g
    obtain ⟨cs, g2, hcs, hprops⟩ := ih g1 (i + 1)
    refine ⟨c :: cs, g2, ?_, ?_⟩
    · simp only [genCustomersAux, hc]
      simp only [hcs]
    · intro x hx
      rcases List.mem_cons.mp hx with h | h
      · exact h ▸ ⟨hp1, hp2⟩
      · exact hprops x h

/-- The candidate pool of an order only contains catalog products. -/
theorem orderPool_subset (products : List Product) (cust : Customer) (u : Rat) :
    ∀ p ∈ orderPool products cust u, p ∈ products := by
  intro p hp
  unfold orderPool at hp
  split at hp
  · exact (List.mem_filter.mp hp).1
  · exact hp

theorem orderFinancials_fst (sel : List Product) :
    (orderFinancials sel).1 = (sel.map Product.final_price).sum := rfl

theorem orderFinancials_tax (sel : List Product) :
    (orderFinancials sel).2.1 = round2 ((orderFinancials sel).1 * 0.08) := rfl

theorem orderFinancials_ship (sel : List Product) :
    (orderFinancials sel).2.2.1 =
      if (orderFinancials sel).1 > 50 then (0 : Rat) else 9.99 := rfl

theorem orderFinancials_total (sel : List Product) :
    (orderFinancials sel).2.2.2 =
      round2 ((orderFinancials sel).1 + (orderFinancials sel).2.1 + (orderFinancials sel).2.2.1) := rfl

/-- The delivery date is present exactly in the delivered branch, and then
it is 2 to 10 days after the order date. -/
theorem orderDelivery_spec (st : String) (od : Int) (g : Rng) :
    ((st = "delivered") ↔ ∃ d, (orderDelivery st od g).1 = some d) ∧
      (∀ d, (orderDelivery st od g).1 = some d → od < d) := by
  unfold orderDelivery
  split_ifs with hd
  · refine ⟨⟨fun _ => ⟨od + (randInt 2 10 g).1, rfl⟩, fun _ => hd⟩, ?_⟩
    intro d h
    have h2 := (randInt_le 2 10 g (by omega)).1
    have := Option.some.inj h
    omega
  · exact ⟨⟨fun h => absurd h hd, fun ⟨d, h⟩ => by simp at h⟩, fun d h => by simp at h⟩

/-- With 2-decimal unit prices, the emitted (rounded) subtotal equals the
raw subtotal, and the financial fields satisfy the spec's equations
relative to the emitted subtotal. -/
theorem orderFinancials_ok (sel : List Product)
    (hsel : ∀ p ∈ sel, isCents p.final_price) :
    (orderFinancials sel).2.1 = round2 (round2 (orderFinancials sel).1 * 0.08) ∧
    ((orderFinancials sel).2.2.1 = 0 ↔ round2 (orderFinancials sel).1 > 50) ∧
    ((orderFinancials sel).2.2.1 = 0 ∨ (orderFinancials sel).2.2.1 = 9.99) ∧
    (orderFinancials sel).2.2.2 =
      round2 (round2 (orderFinancials sel).1 + (orderFinancials sel).2.1 +
        (orderFinancials sel).2.2.1) := by
  have hsub : isCents (orderFinancials sel).1 := by
    rw [orderFinancials_fst]
    refine isCents_sum _ ?_
    intro x hx
    obtain ⟨p, hp, rfl⟩ := List.mem_map.mp hx
    exact hsel p hp
  have h2 := hsub.round2_eq
  refine ⟨?_, ?_, ?_, ?_⟩
  · rw [h2, orderFinancials_tax]
  · rw [h2, orderFinancials_ship]
    split_ifs with hgt
    · simp [hgt]
    · simp only [hgt, iff_false]
      norm_num
  · rw [orderFinancials_ship]
    split_ifs
    · exact Or.inl rfl
    · exact Or.inr rfl
  · rw [h2, orderFinancials_total]

/-- One generated order: the spec's financial and temporal invariants. -/
theorem genOrder_order_spec (now : Int) (customers : List Customer)
    (products : List Product) (i : Nat) (g : Rng)
    (hs : ∀ c ∈ customers, c.signup_date ≤ now)
    (hc : ∀ p ∈ products, isCents p.final_price) :
    ∀ o lits g', genOrder now customers products i g = some ((o, lits), g') →
      o.tax = round2 (o.subtotal * 0.08) ∧
      (o.shipping = 0 ↔ o.subtotal > 50) ∧
      (o.shipping = 0 ∨ o.shipping = 9.99) ∧
      o.total = round2 (o.subtotal + o.tax + o.shipping) ∧
      (∃ c ∈ customers, c.customer_id = o.customer_id ∧ c.signup_date ≤ o.order_date) ∧
      o.order_date ≤ now ∧
      ((o.status = "delivered") ↔ ∃ d, o.delivery_date = some d) ∧
      (∀ d, o.delivery_date = some d → o.order_date < d) := by
  intro o lits g' h
  cases customers with
  | nil => simp [genOrder, sample1] at h
  | cons c0 cs0 =>
    unfold genOrder at h
    simp only [sample1] at h
    have h' := Option.some.inj h
    have ho : _ = o := congrArg (fun x => x.1.1) h'
    subst ho
    dsimp only
    have hcust : (pickL (c0 :: cs0) c0 g).1 ∈ c0 :: cs0 := pickL_mem _ _ _ (by simp)
    refine ⟨(orderFinancials_ok _
        (fun p hp => hc p (orderPool_subset _ _ _ p (sampleK_mem _ _ _ p hp)))).1,
      (orderFinancials_ok _
        (fun p hp => hc p (orderPool_subset _ _ _ p (sampleK_mem _ _ _ p hp)))).2.1,
      (orderFinancials_ok _
        (fun p hp => hc p (orderPool_subset _ _ _ p (sampleK_mem _ _ _ p hp)))).2.2.1,
      (orderFinancials_ok _
        (fun p hp => hc p (orderPool_subset _ _ _ p (sampleK_mem _ _ _ p hp)))).2.2.2,
      ?_, ?_, ?_, ?_⟩
    · exact ⟨(pickL (c0 :: cs0) c0 g).1, hcust, rfl,
        (randInt_le _ now _ (hs _ hcust)).1⟩
    · exact (randInt_le _ now _ (hs _ hcust)).2
    · exact (orderDelivery_spec _ _ _).1
    · exact (orderDelivery_spec _ _ _).2

/-- C5: for every generated order: `tax = round(subtotal * 0.08, 2)`;
`shipping = 0` iff `subtotal > 50` (otherwise the flat fee 9.99); `total =
subtotal + tax + shipping` under 2-decimal rounding; the order timestamp
lies between the owning customer's signup date and now; and the delivery
date is present iff the status is delivered, in which case it is after the
order timestamp.  The hypotheses record that the inputs come from the
earlier pipeline stages: signup dates are in the past and catalog prices
are 2-decimal amounts. -/
theorem C5_order_invariants (now : Int) (customers : List Customer)
    (products : List Product) (K : Nat) (g : Rng)
    (hs : ∀ c ∈ customers, c.signup_date ≤ now)
    (hc : ∀ p ∈ products, isCents p.final_price) :
    ∀ res, generate_orders now customers products K g = some res →
      ∀ o ∈ res.1.1,
        o.tax = round2 (o.subtotal * 0.08) ∧
        (o.shipping = 0 ↔ o.subtotal > 50) ∧
        (o.shipping = 0 ∨ o.shipping = 9.99) ∧
        o.total = round2 (o.subtotal + o.tax + o.shipping) ∧
        (∃ c ∈ customers, c.customer_id = o.customer_id ∧ c.signup_date ≤ o.order_date) ∧
        o.order_date ≤ now ∧
        ((o.status = "delivered") ↔ ∃ d, o.delivery_date = some d) ∧
        (∀ d, o.delivery_date = some d → o.order_date < d) := by
  unfold generate_orders
  generalize 0 = i
  induction K generalizing i g with
  | zero =>
    intro res h
    simp only [genOrdersAux, Option.some.injEq] at h
    subst h
    simp
  | succ n ih =>
    intro res h
    simp only [genOrdersAux] at h
    match hg : genOrder now customers products i g with
    | none => rw [hg] at h; exact absurd h (by simp)
    | some r =>
      rw [hg] at h
      dsimp only at h
      match hg2 : genOrdersAux now customers products n (i + 1) r.2 with
      | none => rw [hg2] at h; exact absurd h (by simp)
      | some r2 =>
        rw [hg2] at h
        simp only [Option.some.injEq] at h
        subst h
        intro o ho
        simp only [List.mem_cons] at ho
        rcases ho with ho | ho
        · exact ho ▸ genOrder_order_spec now customers products i g hs hc r.1.1 r.1.2 r.2
            (by rw [hg])
        · exact ih r.2 (i + 1) r2 hg2 o ho

/-- A catalog product with a 2-decimal price for the C5 witness run. -/
def c5Product : Product :=
  ⟨1, "P", "Electronics", "Laptops", "Dell", 100, 0, 100, 1, true, 3, 0, "d", [], [], 0, 0⟩

/-- A customer with signup date 0 for the C5 witness run. -/
def c5Customer : Customer :=
  ⟨1, "n", "e", "p", "c", "ci", 0, 0, "regular", 10, 1000, 100,
    ["Electronics"], false, false, "low"⟩

/-- The C5 witness run: one order at clock 1000 from the all-zero stream. -/
def c5run : (List Order × List OrderItem) × Rng :=
  (generate_orders 1000 [c5Customer] [c5Product] 1 (listRng [])).getD (([], []), listRng [])

/-- Witness for C5: its invariants hold for the order of the concrete run. -/
theorem C5_order_invariants_witness :
    (c5run.1.1.headD default).tax = round2 ((c5run.1.1.headD default).subtotal * 0.08) ∧
    ((c5run.1.1.headD default).shipping = 0 ↔ (c5run.1.1.headD default).subtotal > 50) ∧
    ((c5run.1.1.headD default).shipping = 0 ∨ (c5run.1.1.headD default).shipping = 9.99) ∧
    (c5run.1.1.headD default).total = round2 ((c5run.1.1.headD default).subtotal +
      (c5run.1.1.headD default).tax + (c5run.1.1.headD default).shipping) ∧
    (∃ c ∈ [c5Customer], c.customer_id = (c5run.1.1.headD default).customer_id ∧
      c.signup_date ≤ (c5run.1.1.headD default).order_date) ∧
    (c5run.1.1.headD default).order_date ≤ 1000 ∧
    (((c5run.1.1.headD default).status = "delivered") ↔
      ∃ d, (c5run.1.1.headD default).delivery_date = some d) ∧
    (∀ d, (c5run.1.1.headD default).delivery_date = some d →
      (c5run.1.1.headD default).order_date < d) :=
  C5_order_invariants 1000 [c5Customer] [c5Product] 1 (listRng [])
    (by
      intro c hcm
      rw [List.mem_singleton] at hcm
      subst hcm
      with_unfolding_all decide)
    (by
      intro p hpm
      rw [List.mem_singleton] at hpm
      subst hpm
      have hfp : c5Product.final_price = 100 := rfl
      rw [hfp]
      exact ⟨10000, by norm_num⟩)
    c5run (by with_unfolding_all rfl)
    (c5run.1.1.headD default) (by with_unfolding_all decide)

/-- One OrderItem row is emitted per selected product. -/
theorem genOrderItems_length (oid : Nat) (sel : List Product) (g : Rng) :
    (genOrderItems oid sel g).1.length = sel.length := by
  induction sel generalizing g with
  | nil => rfl
  | cons p rest ih => simp [genOrderItems, ih]

/-- The candidate pool is either the full catalog or the catalog filtered
to the drawn customer's preferred categories. -/
theorem orderPool_cases (products : List Product) (cust : Customer) (u : Rat) :
    orderPool products cust u = products ∨
      orderPool products cust u = products.filter
        (fun p => decide (p.category ∈ cust.preferred_categories)) := by
  unfold orderPool
  split_ifs
  · exact Or.inr rfl
  · exact Or.inl rfl

/-- A product for the C10 evaluation. -/
def c10Product : Product :=
  ⟨1, "P", "Electronics", "Laptops", "Dell", 100, 0, 100, 1, true, 3, 0, "d", [], [], 0, 0⟩

/-- A customer for the C10 evaluation. -/
def c10Customer : Customer :=
  ⟨1, "n", "e", "p", "c", "ci", 0, 0, "regular", 10, 1000, 100,
    ["Electronics"], false, false, "low"⟩

/-- The C10 evaluation stream: the drawn item count is 2 while the
candidate pool holds a single product. -/
def c10g : Rng := listRng [0, 0, 3/5]

/-- The C10 evaluation run. -/
def c10run : (Order × List OrderItem) × Rng :=
  (genOrder 1000 [c10Customer] [c10Product] 0 c10g).getD
    ((default, []), listRng [])

/-- C10: an order's `num_items` field records the drawn target count, and
the emitted OrderItem rows number `min(num_items, pool size)` for the
order's candidate pool — equal to `num_items` whenever the pool has at
least `num_items` products, and strictly fewer when the pool is smaller;
the second conjunct exhibits an input where the shortfall happens. -/
theorem C10_num_items_records_target :
    (∀ (now : Int) (customers : List Customer) (products : List Product)
      (i : Nat) (g : Rng) (o : Order) (lits : List OrderItem) (g' : Rng),
      genOrder now customers products i g = some ((o, lits), g') →
      ∃ pool, (pool = products ∨
          ∃ c ∈ customers, pool = products.filter
            (fun p => decide (p.category ∈ c.preferred_categories))) ∧
        lits.length = min o.num_items pool.length ∧
        (o.num_items ≤ pool.length → lits.length = o.num_items) ∧
        (pool.length < o.num_items → lits.length < o.num_items)) ∧
    (∃ now customers products i g o lits g',
      genOrder now customers products i g = some ((o, lits), g') ∧
      lits.length < o.num_items) := by
  constructor
  · intro now customers products i g o lits g' h
    cases customers with
    | nil => simp [genOrder, sample1] at h
    | cons c0 cs0 =>
      unfold genOrder at h
      simp only [sample1] at h
      have h' := Option.some.inj h
      have ho : _ = o := congrArg (fun x => x.1.1) h'
      have hl : _ = lits := congrArg (fun x => x.1.2) h'
      subst ho
      subst hl
      dsimp only
      refine ⟨orderPool products (pickL (c0 :: cs0) c0 g).1
        ((randUnit ((choicesW (1, 0.5) [(2, 0.25), (3, 0.15), (4, 0.08), (5, 0.02)]
          ((randInt (pickL (c0 :: cs0) c0 g).1.signup_date now
            (pickL (c0 :: cs0) c0 g).2).2)).2)).1), ?_, ?_, ?_, ?_⟩
      · rcases orderPool_cases products (pickL (c0 :: cs0) c0 g).1
          ((randUnit ((choicesW (1, 0.5) [(2, 0.25), (3, 0.15), (4, 0.08), (5, 0.02)]
            ((randInt (pickL (c0 :: cs0) c0 g).1.signup_date now
              (pickL (c0 :: cs0) c0 g).2).2)).2)).1) with hcase | hcase
        · exact Or.inl hcase
        · exact Or.inr ⟨(pickL (c0 :: cs0) c0 g).1, pickL_mem _ _ _ (by simp), hcase⟩
      · rw [genOrderItems_length, sampleK_length]
        omega
      · rw [genOrderItems_length, sampleK_length]
        omega
      · rw [genOrderItems_length, sampleK_length]
        omega
  · refine ⟨1000, [c10Customer], [c10Product], 0, c10g,
      c10run.1.1, c10run.1.2, c10run.2, ?_, ?_⟩
    · with_unfolding_all rfl
    · with_unfolding_all decide

/-- Witness for the universal part of C10 at the concrete C10 run. -/
theorem C10_num_items_records_target_witness :
    ∃ pool, (pool = [c10Product] ∨
        ∃ c ∈ [c10Customer], pool = [c10Product].filter
          (fun p => decide (p.category ∈ c.preferred_categories))) ∧
      c10run.1.2.length = min c10run.1.1.num_items pool.length ∧
      (c10run.1.1.num_items ≤ pool.length → c10run.1.2.length = c10run.1.1.num_items) ∧
      (pool.length < c10run.1.1.num_items → c10run.1.2.length < c10run.1.1.num_items) :=
  C10_num_items_records_target.1 1000 [c10Customer] [c10Product] 0 c10g
    c10run.1.1 c10run.1.2 c10run.2 (by with_unfolding_all rfl)

/-- With a non-empty catalog in which every preferred category of the
drawn customer is represented, the candidate pool is never empty. -/
theorem orderPool_ne_nil (products : List Product) (cust : Customer) (u : Rat)
    (hp : products ≠ [])
    (hcovc : ∀ cat ∈ cust.preferred_categories, ∃ p ∈ products, p.category = cat) :
    orderPool products cust u ≠ [] := by
  unfold orderPool
  split_ifs with hcond
  · obtain ⟨hu, hprefs⟩ := hcond
    obtain ⟨cat, hcat⟩ := List.exists_mem_of_ne_nil _ hprefs
    obtain ⟨p, hpmem, hpcat⟩ := hcovc cat hcat
    refine List.ne_nil_of_mem (a := p) (List.mem_filter.mpr ⟨hpmem, ?_⟩)
    simp [hpcat, hcat]
  · exact hp

/-- One order under the coverage hypotheses: generation succeeds and the
order carries between 1 and 5 item rows. -/
theorem genOrder_items_bounds (now : Int) (customers : List Customer)
    (products : List Product) (i : Nat) (g : Rng)
    (hne : customers ≠ []) (hp : products ≠ [])
    (hcov : ∀ c ∈ customers, ∀ cat ∈ c.preferred_categories,
      ∃ p ∈ products, p.category = cat) :
    ∃ o lits g', genOrder now customers products i g = some ((o, lits), g') ∧
      1 ≤ lits.length ∧ lits.length ≤ 5 := by
  match customers with
  | [] => exact absurd rfl hne
  | c0 :: cs0 =>
    have hm := choicesW_mem ((1 : Nat), 0.5)
      [(2, 0.25), (3, 0.15), (4, 0.08), (5, 0.02)]
      ((randInt (pickL (c0 :: cs0) c0 g).1.signup_date now
        (pickL (c0 :: cs0) c0 g).2).2)
    simp only [List.map_cons, List.map_nil, List.mem_cons, List.not_mem_nil,
      or_false] at hm
    have hni : 1 ≤ (choicesW ((1 : Nat), 0.5)
        [(2, 0.25), (3, 0.15), (4, 0.08), (5, 0.02)]
        ((randInt (pickL (c0 :: cs0) c0 g).1.signup_date now
          (pickL (c0 :: cs0) c0 g).2).2)).1 ∧
        (choicesW ((1 : Nat), 0.5)
        [(2, 0.25), (3, 0.15), (4, 0.08), (5, 0.02)]
        ((randInt (pickL (c0 :: cs0) c0 g).1.signup_date now
          (pickL (c0 :: cs0) c0 g).2).2)).1 ≤ 5 := by
      rcases hm with h | h | h | h | h <;> omega
    have hpool : orderPool products (pickL (c0 :: cs0) c0 g).1
        ((randUnit ((choicesW (1, 0.5) [(2, 0.25), (3, 0.15), (4, 0.08), (5, 0.02)]
          ((randInt (pickL (c0 :: cs0) c0 g).1.signup_date now
            (pickL (c0 :: cs0) c0 g).2).2)).2)).1) ≠ [] :=
      orderPool_ne_nil _ _ _ hp
        (hcov _ (pickL_mem _ _ _ (by simp)))
    have hlenp := List.length_pos.mpr hpool
    refine ⟨_, _, _, rfl, ?_, ?_⟩ <;>
      rw [genOrderItems_length, sampleK_length] <;>
      omega

/-- C2 (amended): there is no fallback when the preferred-category
restriction empties the pool — such orders get zero item rows (see the
counterexample).  When the catalog is non-empty and every customer's
preferred categories are each represented in it, every pool is non-empty,
so each of the K orders gets 1 to 5 item rows and the order_items table
has between K and 5K rows. -/
theorem C2_amended_bounds (now : Int) (customers : List Customer)
    (products : List Product) (K : Nat) (g : Rng)
    (hne : customers ≠ []) (hp : products ≠ [])
    (hcov : ∀ c ∈ customers, ∀ cat ∈ c.preferred_categories,
      ∃ p ∈ products, p.category = cat) :
    ∃ os its g', generate_orders now customers products K g = some ((os, its), g') ∧
      os.length = K ∧ K ≤ its.length ∧ its.length ≤ 5 * K := by
  unfold generate_orders
  generalize 0 = i
  induction K generalizing i g with
  | zero =>
    refine ⟨[], [], g, rfl, rfl, ?_, ?_⟩ <;> simp
  | succ n ih =>
    obtain ⟨o, lits, g1, hgen, hlb, hub⟩ :=
      genOrder_items_bounds now customers products i g hne hp hcov
    obtain ⟨os, its, g2, hrec, hlen, hl2, hu2⟩ := ih g1 (i + 1)
    refine ⟨o :: os, lits ++ its, g2, ?_, ?_, ?_, ?_⟩
    · simp only [genOrdersAux, hgen]
      simp only [hrec]
    · simp [hlen]
    · simp only [List.length_append]
      omega
    · simp only [List.length_append]
      omega

/-- Witness for the amended C2 at a concrete covered input. -/
theorem C2_amended_bounds_witness :
    ∃ os its g', generate_orders 1000 [c1Customer] [c1Product] 1 (listRng []) =
        some ((os, its), g') ∧
      os.length = 1 ∧ 1 ≤ its.length ∧ its.length ≤ 5 * 1 :=
  C2_amended_bounds 1000 [c1Customer] [c1Product] 1 (listRng [])
    (by simp) (by simp) (by with_unfolding_all decide)

/-- An `order_status` branch that emits messages references one of the
customer's own orders. -/
theorem convBranch_ref (now : Int) (customer : Customer) (products : List Product)
    (orders : List Order) (issue : String) (tidx : Nat) (g : Rng)
    (hiss : issue = "order_status") :
    ∀ m r ref g', convBranch now customer products orders issue tidx g =
        some (some (m, r, ref), g') →
      ∃ o ∈ orders, ref = some o.order_id ∧ o.customer_id = customer.customer_id := by
  subst hiss
  intro m r ref g' h
  unfold convBranch at h
  rw [if_neg (by decide), if_pos rfl] at h
  match hs : sample1 (orders.filter
      (fun o => decide (o.customer_id = customer.customer_id))) g with
  | none => rw [hs] at h; simp at h
  | some og =>
    rw [hs] at h
    dsimp only at h
    have h1 := congrArg Prod.fst (Option.some.inj h)
    have h2 := Option.some.inj h1
    have h3 := congrArg (fun x => x.2.2) h2
    have hmem := sample1_mem _ _ og.1 og.2 (by rw [hs])
    obtain ⟨ho, hoc⟩ := List.mem_filter.mp hmem
    exact ⟨og.1, ho, h3.symm, of_decide_eq_true hoc⟩

/-- One emitted conversation with issue category `order_status` references
an order of the conversation's own customer. -/
theorem genConversation_order_status (now : Int) (customers : List Customer)
    (products : List Product) (orders : List Order) (i : Nat) (g : Rng) :
    ∀ cv g', genConversation now customers products orders i g = some (some cv, g') →
      cv.issue_type = "order_status" →
      ∃ o ∈ orders, cv.ref_order_id = some o.order_id ∧
        o.customer_id = cv.customer_id := by
  intro cv g' h hiss
  cases customers with
  | nil => simp [genConversation, sample1] at h
  | cons c0 cs0 =>
    unfold genConversation at h
    simp only [sample1] at h
    match hb : convBranch now (pickL (c0 :: cs0) c0 g).1 products orders
        (pickL ISSUE_TYPES ("product_inquiry") (pickL (c0 :: cs0) c0 g).2).1
        ((randNat (pickL ISSUE_TYPES ("product_inquiry")
          (pickL (c0 :: cs0) c0 g).2).2).1 % 3)
        ((randNat (pickL ISSUE_TYPES ("product_inquiry")
          (pickL (c0 :: cs0) c0 g).2).2).2) with
    | none => rw [hb] at h; simp at h
    | some (none, gb) => rw [hb] at h; simp at h
    | some (some msgRef, gb) =>
      rw [hb] at h
      dsimp only at h
      have h1 := congrArg Prod.fst (Option.some.inj h)
      have h2 := Option.some.inj h1
      subst h2
      exact convBranch_ref now _ products orders _ _ _ hiss
        msgRef.1 msgRef.2.1 msgRef.2.2 gb (by rw [hb])

/-- C7: a conversation attempt that draws `order_status` for a customer
with no orders is silently abandoned and does not count toward the
requested count, so at most `P` conversations are emitted; and every
emitted `order_status` conversation references an order whose customer id
equals the conversation's customer id. -/
theorem C7_order_status_conversations (now : Int) (customers : List Customer)
    (products : List Product) (orders : List Order) (P : Nat) (g : Rng) :
    ∀ res, generate_support_conversations now customers products orders P g = some res →
      res.1.length ≤ P ∧
      ∀ cv ∈ res.1, cv.issue_type = "order_status" →
        ∃ o ∈ orders, cv.ref_order_id = some o.order_id ∧
          o.customer_id = cv.customer_id := by
  unfold generate_support_conversations
  generalize 0 = i
  induction P generalizing i g with
  | zero =>
    intro res h
    simp only [genConversationsAux, Option.some.injEq] at h
    subst h
    simp
  | succ n ih =>
    intro res h
    simp only [genConversationsAux] at h
    match hg : genConversation now customers products orders i g with
    | none => rw [hg] at h; exact absurd h (by simp)
    | some r =>
      rw [hg] at h
      dsimp only at h
      match hg2 : genConversationsAux now customers products orders n (i + 1) r.2 with
      | none => rw [hg2] at h; exact absurd h (by simp)
      | some r2 =>
        rw [hg2] at h
        dsimp only at h
        match hr1 : r.1 with
        | none =>
          rw [hr1] at h
          simp only [Option.some.injEq] at h
          subst h
          obtain ⟨hlen, hprop⟩ := ih r.2 (i + 1) r2 hg2
          exact ⟨hlen.trans (by omega), hprop⟩
        | some conv =>
          rw [hr1] at h
          simp only [Option.some.injEq] at h
          subst h
          obtain ⟨hlen, hprop⟩ := ih r.2 (i + 1) r2 hg2
          refine ⟨by simpa using Nat.succ_le_succ hlen, ?_⟩
          intro cv hcv hiss
          rcases List.mem_cons.mp hcv with hcv | hcv
          · subst hcv
            exact genConversation_order_status now customers products orders i g
              cv r.2 (by rw [hg, ← hr1]) hiss
          · exact hprop cv hcv hiss

/-- An order of customer 1 for the C7 witness run. -/
def c7Order : Order := ⟨1, 1, 5, "delivered", 1, 100, 8, 0, 108, "paypal", "a", some 8⟩

/-- The C7 witness run: one attempt that draws the `order_status` issue. -/
def c7run : List Conversation × Rng :=
  (generate_support_conversations 1000 [c1Customer] [c1Product] [c7Order] 1
    (listRng [0, 1, 0])).getD ([], listRng [])

/-- Witness for C7 at the concrete run. -/
theorem C7_order_status_conversations_witness :
    c7run.1.length ≤ 1 ∧
    ∀ cv ∈ c7run.1, cv.issue_type = "order_status" →
      ∃ o ∈ [c7Order], cv.ref_order_id = some o.order_id ∧
        o.customer_id = cv.customer_id :=
  C7_order_status_conversations 1000 [c1Customer] [c1Product] [c7Order] 1
    (listRng [0, 1, 0]) c7run (by with_unfolding_all rfl)

/-- Helper: a category that is represented in the catalog yields a
non-empty filtered pool. -/
theorem filter_cat_ne_nil (products : List Product) (cat : String)
    (h : ∃ p ∈ products, p.category = cat) :
    products.filter (fun p => decide (p.category = cat)) ≠ [] := by
  obtain ⟨p, hp, hpc⟩ := h
  exact List.ne_nil_of_mem (List.mem_filter.mpr ⟨hp, decide_eq_true hpc⟩)

/-- Under full category coverage of the catalog, every issue branch of a
conversation attempt succeeds (never raises). -/
theorem convBranch_total (now : Int) (customer : Customer) (products : List Product)
    (orders : List Order) (issue : String) (tidx : Nat) (g : Rng)
    (hcov : ∀ cat ∈ CATEGORY_NAMES, ∃ p ∈ products, p.category = cat)
    (hiss : issue ∈ ISSUE_TYPES) :
    ∃ r, convBranch now customer products orders issue tidx g = some r := by
  have hpne : products ≠ [] := by
    obtain ⟨p, hp, _⟩ := hcov ("Electronics") (by decide)
    exact List.ne_nil_of_mem hp
  simp only [ISSUE_TYPES, List.mem_cons, List.not_mem_nil, or_false] at hiss
  rcases hiss with h | h | h | h | h | h <;> subst h <;> unfold convBranch
  · rw [if_pos rfl]
    dsimp only
    have hcat : (pickL CATEGORY_NAMES ("Electronics") g).1 ∈ CATEGORY_NAMES :=
      pickL_mem _ _ _ (by decide)
    have hfil := filter_cat_ne_nil products _ (hcov _ hcat)
    obtain ⟨a, g2, hs⟩ := sample1_ne_nil _
      ((randNat (pickL ["work", "school", "travel", "gift"] ("")
        (pickL ["fits my budget", "works for gaming", "is portable", "has warranty"] ("")
          (pickL ["good battery life", "high quality", "under $500", "5-star rating"] ("")
            (pickL (catInfo (pickL CATEGORY_NAMES ("Electronics") g).1).subcategories ("")
              (pickL CATEGORY_NAMES ("Electronics") g).2).2).2).2).2).2) hfil
    rw [hs]
    exact ⟨_, rfl⟩
  · rw [if_neg (by decide), if_pos rfl]
    match hs : sample1 (orders.filter
        (fun o => decide (o.customer_id = customer.customer_id))) g with
    | none => rw [hs]; exact ⟨_, rfl⟩
    | some og => rw [hs]; exact ⟨_, rfl⟩
  · rw [if_neg (by decide), if_neg (by decide), if_pos rfl]
    obtain ⟨a, g2, hs⟩ := sample1_ne_nil products g hpne
    rw [hs]
    exact ⟨_, rfl⟩
  · rw [if_neg (by decide), if_neg (by decide), if_neg (by decide), if_pos rfl]
    have hfil := filter_cat_ne_nil products ("Electronics") (hcov _ (by decide))
    obtain ⟨a, g2, hs⟩ := sample1_ne_nil _ g hfil
    rw [hs]
    exact ⟨_, rfl⟩
  · rw [if_neg (by decide), if_neg (by decide), if_neg (by decide), if_neg (by decide),
      if_pos rfl]
    obtain ⟨a, g2, hs⟩ := sample1_ne_nil products g hpne
    rw [hs]
    exact ⟨_, rfl⟩
  · rw [if_neg (by decide), if_neg (by decide), if_neg (by decide), if_neg (by decide),
      if_neg (by decide)]
    dsimp only
    have hlen : (sampleK (min 3 products.length) products
        ((randNat (pickL ["birthday", "anniversary", "graduation", "holiday"] ("")
          (pickL ["travels a lot", "works from home", "is a student", "loves tech"] ("")
            (pickL ([100, 200, 500, 1000] : List Nat) 0
              (pickL CATEGORY_NAMES ("Electronics") g).2).2).2).2).2)).1.length =
        min (min 3 products.length) products.length := sampleK_length _ _ _
    have hppos : 0 < products.length := List.length_pos.mpr hpne
    match hsel : (sampleK (min 3 products.length) products
        ((randNat (pickL ["birthday", "anniversary", "graduation", "holiday"] ("")
          (pickL ["travels a lot", "works from home", "is a student", "loves tech"] ("")
            (pickL ([100, 200, 500, 1000] : List Nat) 0
              (pickL CATEGORY_NAMES ("Electronics") g).2).2).2).2).2)).1 with
    | [] =>
      rw [hsel] at hlen
      simp at hlen
      omega
    | r0 :: rest =>
      exact ⟨_, rfl⟩

/-- One conversation attempt never raises when the customer table is
non-empty and every taxonomy category is represented in the catalog. -/
theorem genConversation_total (now : Int) (customers : List Customer)
    (products : List Product) (orders : List Order) (i : Nat) (g : Rng)
    (hcust : customers ≠ [])
    (hcov : ∀ cat ∈ CATEGORY_NAMES, ∃ p ∈ products, p.category = cat) :
    ∃ r, genConversation now customers products orders i g = some r := by
  match customers with
  | [] => exact absurd rfl hcust
  | c0 :: cs0 =>
    unfold genConversation
    simp only [sample1]
    have hiss : (pickL ISSUE_TYPES ("product_inquiry")
        (pickL (c0 :: cs0) c0 g).2).1 ∈ ISSUE_TYPES := pickL_mem _ _ _ (by decide)
    obtain ⟨br, hbr⟩ := convBranch_total now (pickL (c0 :: cs0) c0 g).1 products orders
      _ ((randNat (pickL ISSUE_TYPES ("product_inquiry")
        (pickL (c0 :: cs0) c0 g).2).2).1 % 3)
      ((randNat (pickL ISSUE_TYPES ("product_inquiry")
        (pickL (c0 :: cs0) c0 g).2).2).2) hcov hiss
    rw [hbr]
    match br with
    | (none, gb) => exact ⟨_, rfl⟩
    | (some m, gb) => exact ⟨_, rfl⟩

/-- C3 (amended): apart from the order_status skip, generation is total
only under the stronger hypothesis that every taxonomy category is
represented in the catalog (a non-empty catalog is not enough — see the
counterexample): the `technical_issue` branch draws from
Electronics-category products only, and the `product_inquiry` response
draws from the products of the drawn category, so each needs its
category-restricted pool to be non-empty.  Under that coverage,
`generate_support_conversations` never fails. -/
theorem C3_amended_total (now : Int) (customers : List Customer)
    (products : List Product) (orders : List Order) (P : Nat) (g : Rng)
    (hcust : customers ≠ [])
    (hcov : ∀ cat ∈ CATEGORY_NAMES, ∃ p ∈ products, p.category = cat) :
    ∃ res, generate_support_conversations now customers products orders P g =
      some res := by
  unfold generate_support_conversations
  generalize 0 = i
  induction P generalizing i g with
  | zero => exact ⟨([], g), rfl⟩
  | succ n ih =>
    obtain ⟨r, hr⟩ := genConversation_total now customers products orders i g hcust hcov
    obtain ⟨res2, hres2⟩ := ih r.2 (i + 1)
    rcases hrc : r.1 with _ | conv
    · exact ⟨res2, by simp only [genConversationsAux, hr, hres2, hrc]⟩
    · exact ⟨(conv :: res2.1, res2.2), by simp only [genConversationsAux, hr, hres2, hrc]⟩

/-- Five catalog products covering every taxonomy category, for the C3
witness run. -/
def c3wProducts : List Product :=
  [⟨1, "P1", "Electronics", "Laptops", "Dell", 100, 0, 100, 1, true, 3, 0, "d", [], [], 0, 0⟩,
   ⟨2, "P2", "Clothing", "Shoes", "Nike", 50, 0, 50, 1, true, 3, 0, "d", [], [], 0, 0⟩,
   ⟨3, "P3", "Home & Kitchen", "Decor", "IKEA", 60, 0, 60, 1, true, 3, 0, "d", [], [], 0, 0⟩,
   ⟨4, "P4", "Sports & Outdoors", "Fitness", "REI", 70, 0, 70, 1, true, 3, 0, "d", [], [], 0, 0⟩,
   ⟨5, "P5", "Books & Media", "Fiction", "Wiley", 20, 0, 20, 1, true, 3, 0, "d", [], [], 0, 0⟩]

/-- Witness for the amended C3 at a concrete covered catalog. -/
theorem C3_amended_total_witness :
    ∃ res, generate_support_conversations 1000 [c1Customer] c3wProducts [] 1
      (listRng []) = some res :=
  C3_amended_total 1000 [c1Customer] c3wProducts [] 1 (listRng [])
    (by simp) (by with_unfolding_all decide)

theorem isCents.sub {a b : Rat} (ha : isCents a) (hb : isCents b) : isCents (a - b) := by
  obtain ⟨m, rfl⟩ := ha
  obtain ⟨n, rfl⟩ := hb
  exact ⟨m - n, by push_cast; ring⟩

/-- A 2-decimal amount with absolute value at most `3/200` is at most one
cent in absolute value. -/
theorem cents_abs_le {q : Rat} (hq : isCents q) (h : |q| ≤ 3 / 200) : |q| ≤ 1 / 100 := by
  obtain ⟨k, rfl⟩ := hq
  rw [abs_div, abs_of_pos (show (0 : Rat) < 100 by norm_num)] at h ⊢
  rw [show |((k : Int) : Rat)| = ((|k| : Int) : Rat) by rw [Int.cast_abs]] at h ⊢
  have hk : (|k| : Int) < 2 := by
    by_contra hc
    push_neg at hc
    have h2 : (2 : Rat) ≤ ((|k| : Int) : Rat) := by exact_mod_cast hc
    linarith
  have hk1 : (|k| : Int) ≤ 1 := by omega
  have : ((|k| : Int) : Rat) ≤ 1 := by exact_mod_cast hk1
  linarith

/-- With at most a 30 percent discount, the final price computed from the
unrounded base price and the one computed from the rounded base price
differ by at most one cent. -/
theorem final_price_vs_rounded_base (raw : Rat) (d : Nat) (hd : d ≤ 30) :
    |round2 (raw * (1 - (d : Rat) / 100)) -
      round2 (round2 raw * (1 - (d : Rat) / 100))| ≤ 1 / 100 := by
  have hd0 : (0 : Rat) ≤ (d : Rat) := Nat.cast_nonneg d
  have hd30 : (d : Rat) ≤ 30 := by exact_mod_cast hd
  have hf0 : (0 : Rat) ≤ 1 - (d : Rat) / 100 := by linarith
  have hf1 : 1 - (d : Rat) / 100 ≤ 1 := by linarith
  have h1 := abs_round2_sub (raw * (1 - (d : Rat) / 100))
  have h2 := abs_round2_sub (round2 raw * (1 - (d : Rat) / 100))
  have h3 := abs_round2_sub raw
  have hAB : |raw * (1 - (d : Rat) / 100) - round2 raw * (1 - (d : Rat) / 100)| ≤ 1 / 200 := by
    have : raw * (1 - (d : Rat) / 100) - round2 raw * (1 - (d : Rat) / 100)
        = -((round2 raw - raw) * (1 - (d : Rat) / 100)) := by ring
    rw [this, abs_neg, abs_mul, abs_of_nonneg hf0]
    calc |round2 raw - raw| * (1 - (d : Rat) / 100) ≤ (1 / 200) * 1 :=
          mul_le_mul h3 hf1 hf0 (by norm_num)
      _ = 1 / 200 := by norm_num
  have hcents : isCents (round2 (raw * (1 - (d : Rat) / 100)) -
      round2 (round2 raw * (1 - (d : Rat) / 100))) :=
    (isCents_round2 _).sub (isCents_round2 _)
  refine cents_abs_le hcents ?_
  have e1 := abs_le.mp h1
  have e2 := abs_le.mp h2
  have e3 := abs_le.mp hAB
  rw [abs_le]
  constructor <;> linarith

/-- With `raw ≥ 10` and a discount of 0 or between 5 and 30 percent, the
rounded final price never exceeds the rounded base price. -/
theorem final_le_base (raw : Rat) (d : Nat) (hraw : 10 ≤ raw)
    (hd : d = 0 ∨ (5 ≤ d ∧ d ≤ 30)) :
    round2 (raw * (1 - (d : Rat) / 100)) ≤ round2 raw := by
  rcases hd with hd | ⟨hd5, hd30⟩
  · subst hd
    norm_num
  · have hd5q : (5 : Rat) ≤ (d : Rat) := by exact_mod_cast hd5
    have hm : (50 : Rat) ≤ raw * (d : Rat) := by nlinarith
    have hf : raw * (1 - (d : Rat) / 100) = raw - raw * (d : Rat) / 100 := by ring
    rw [hf]
    have h1 := abs_le.mp (abs_round2_sub (raw - raw * (d : Rat) / 100))
    have h2 := abs_le.mp (abs_round2_sub raw)
    linarith [h1.2, h2.1]

/-- Keys of the filled attribute mapping come from the sampled names. -/
theorem fillAttrs_keys (names : List String) (g : Rng) :
    ∀ a ∈ (fillAttrs names g).1, a.1 ∈ names := by
  induction names generalizing g with
  | nil => simp [fillAttrs]
  | cons x xs ih =>
    intro a ha
    simp only [fillAttrs, List.mem_cons] at ha
    rcases ha with ha | ha
    · subst ha
      simp
    · exact List.mem_cons_of_mem _ (ih _ a ha)

/-- The discount draw shape: 0 without the 25 percent discount event,
otherwise one of the fixed percentage set. -/
theorem disc_shape (u : Rat) (g : Rng) :
    (if u < 0.25 then pickL ([5, 10, 15, 20, 25, 30] : List Nat) 0 g
      else ((0 : Nat), g)).1 = 0 ∨
      (5 ≤ (if u < 0.25 then pickL ([5, 10, 15, 20, 25, 30] : List Nat) 0 g
        else ((0 : Nat), g)).1 ∧
       (if u < 0.25 then pickL ([5, 10, 15, 20, 25, 30] : List Nat) 0 g
        else ((0 : Nat), g)).1 ≤ 30) := by
  split_ifs with h
  · right
    have hm := pickL_mem ([5, 10, 15, 20, 25, 30] : List Nat) 0 g (by decide)
    simp only [List.mem_cons, List.not_mem_nil, or_false] at hm
    rcases hm with h | h | h | h | h | h <;> omega
  · exact Or.inl rfl

/-- The drawn discount never exceeds 30 percent. -/
theorem disc_le (u : Rat) (g : Rng) :
    (if u < 0.25 then pickL ([5, 10, 15, 20, 25, 30] : List Nat) 0 g
      else ((0 : Nat), g)).1 ≤ 30 := by
  rcases disc_shape u g with h | h <;> omega

/-- The drawn discount is 0 or lies in the fixed percentage set. -/
theorem disc_mem (u : Rat) (g : Rng) :
    (if u < 0.25 then pickL ([5, 10, 15, 20, 25, 30] : List Nat) 0 g
      else ((0 : Nat), g)).1 = 0 ∨
      (if u < 0.25 then pickL ([5, 10, 15, 20, 25, 30] : List Nat) 0 g
        else ((0 : Nat), g)).1 ∈ ([5, 10, 15, 20, 25, 30] : List Nat) := by
  split_ifs with h
  · exact Or.inr (pickL_mem _ _ _ (by decide))
  · exact Or.inl rfl

/-- Every category's price range starts at 10 or more, so the sampled raw
base price is at least 10. -/
theorem raw_ge_10 (cat : String) (hcat : cat ∈ CATEGORY_NAMES) (g : Rng) :
    10 ≤ (randUniform (catInfo cat).priceLo (catInfo cat).priceHi g).1 := by
  have hb : ∀ c ∈ CATEGORY_NAMES,
      10 ≤ (catInfo c).priceLo ∧ (catInfo c).priceLo ≤ (catInfo c).priceHi := by decide
  obtain ⟨h10, hle⟩ := hb cat hcat
  linarith [(randUniform_le _ _ g hle).1]

/-- One generated product: the amended C6 invariants. -/
theorem genProduct_spec (now : Int) (i : Nat) (g : Rng) :
    (genProduct now i g).1.discount_percent ≤ 30 ∧
    ((genProduct now i g).1.discount_percent = 0 ∨
      (genProduct now i g).1.discount_percent ∈ ([5, 10, 15, 20, 25, 30] : List Nat)) ∧
    (∃ raw, 10 ≤ raw ∧ (genProduct now i g).1.base_price = round2 raw ∧
      (genProduct now i g).1.final_price =
        round2 (raw * (1 - ((genProduct now i g).1.discount_percent : Rat) / 100))) ∧
    (genProduct now i g).1.final_price ≤ (genProduct now i g).1.base_price ∧
    |(genProduct now i g).1.final_price -
      round2 ((genProduct now i g).1.base_price *
        (1 - ((genProduct now i g).1.discount_percent : Rat) / 100))| ≤ 1 / 100 ∧
    ∀ a ∈ (genProduct now i g).1.attributes,
      a.1 ∈ (catInfo (genProduct now i g).1.category).attributes := by
  unfold genProduct
  dsimp only
  refine ⟨disc_le _ _, disc_mem _ _, ⟨_, ?_, rfl, rfl⟩, ?_, ?_, ?_⟩
  · exact raw_ge_10 _ (pickL_mem _ _ _ (by decide)) _
  · exact final_le_base _ _ (raw_ge_10 _ (pickL_mem _ _ _ (by decide)) _)
      (disc_shape _ _)
  · exact final_price_vs_rounded_base _ _ (disc_le _ _)
  · intro a ha
    exact sampleK_mem _ _ _ _ (fillAttrs_keys _ _ a ha)

/-- C6 (amended): for every generated product the discount percent is 0 or
one of {5, 10, 15, 20, 25, 30} (hence at most 30); the emitted
`final_price` equals `round(raw_base * (1 - discount/100), 2)` computed
from the unrounded sampled base price whose rounding is the emitted
`base_price` (relative to the emitted `base_price` field the relation only
holds to within one cent — see the counterexample); `final_price` never
exceeds `base_price`; and every attribute key belongs to the category's
allowed vocabulary. -/
theorem C6_amended_product_invariants (n : Nat) (now : Int) (g : Rng) :
    ∀ p ∈ (generate_products n now g).1,
      p.discount_percent ≤ 30 ∧
      (p.discount_percent = 0 ∨ p.discount_percent ∈ ([5, 10, 15, 20, 25, 30] : List Nat)) ∧
      (∃ raw, 10 ≤ raw ∧ p.base_price = round2 raw ∧
        p.final_price = round2 (raw * (1 - (p.discount_percent : Rat) / 100))) ∧
      p.final_price ≤ p.base_price ∧
      |p.final_price - round2 (p.base_price * (1 - (p.discount_percent : Rat) / 100))| ≤
        1 / 100 ∧
      ∀ a ∈ p.attributes, a.1 ∈ (catInfo p.category).attributes := by
  suffices haux : ∀ (m i : Nat) (g : Rng), ∀ p ∈ (genProductsAux now m i g).1,
      p.discount_percent ≤ 30 ∧
      (p.discount_percent = 0 ∨ p.discount_percent ∈ ([5, 10, 15, 20, 25, 30] : List Nat)) ∧
      (∃ raw, 10 ≤ raw ∧ p.base_price = round2 raw ∧
        p.final_price = round2 (raw * (1 - (p.discount_percent : Rat) / 100))) ∧
      p.final_price ≤ p.base_price ∧
      |p.final_price - round2 (p.base_price * (1 - (p.discount_percent : Rat) / 100))| ≤
        1 / 100 ∧
      ∀ a ∈ p.attributes, a.1 ∈ (catInfo p.category).attributes by
    exact haux n 0 g
  intro m
  induction m with
  | zero => simp [genProductsAux]
  | succ m ih =>
    intro i g p hp
    simp only [genProductsAux, List.mem_cons] at hp
    rcases hp with h | h
    · exact h ▸ genProduct_spec now i g
    · exact ih (i + 1) (genProduct now i g).2 p h

set_option maxRecDepth 100000 in
/-- Witness for the amended C6 at the concrete C6 run. -/
theorem C6_amended_product_invariants_witness :
    ((generate_products 1 1000 c6g).1.headD default).discount_percent ≤ 30 ∧
    (((generate_products 1 1000 c6g).1.headD default).discount_percent = 0 ∨
      ((generate_products 1 1000 c6g).1.headD default).discount_percent ∈
        ([5, 10, 15, 20, 25, 30] : List Nat)) ∧
    (∃ raw, 10 ≤ raw ∧
      ((generate_products 1 1000 c6g).1.headD default).base_price = round2 raw ∧
      ((generate_products 1 1000 c6g).1.headD default).final_price =
        round2 (raw * (1 - (((generate_products 1 1000 c6g).1.headD
          default).discount_percent : Rat) / 100))) ∧
    ((generate_products 1 1000 c6g).1.headD default).final_price ≤
      ((generate_products 1 1000 c6g).1.headD default).base_price ∧
    |((generate_products 1 1000 c6g).1.headD default).final_price -
      round2 (((generate_products 1 1000 c6g).1.headD default).base_price *
        (1 - (((generate_products 1 1000 c6g).1.headD
          default).discount_percent : Rat) / 100))| ≤ 1 / 100 ∧
    ∀ a ∈ ((generate_products 1 1000 c6g).1.headD default).attributes,
      a.1 ∈ (catInfo ((generate_products 1 1000 c6g).1.headD default).category).attributes :=
  C6_amended_product_invariants 1 1000 c6g
    ((generate_products 1 1000 c6g).1.headD default) (by with_unfolding_all decide)

end Ecom
